import Mathlib

/-!
The memory functions of libosso (`src/osso-mem.c`): memory usage, system limits,
the usage cache and the allocation watchdog.

A shallow embedding of the memory-monitoring code of libosso.

* `size_t`, `unsigned long` and `long` are `w` bits wide (`w` is 32 on the ARM
  targets the library was written for, 64 on LP64 builds).  A `size_t` is a
  natural number below `2 ^ w`; every C operation that can wrap is followed by
  an explicit `% 2 ^ w`.
* Text is a list of characters; the files under `/proc` and `/sys` are an
  explicit input (`Env`), `none` standing for a file that `fopen` cannot open.
* The `static` variables of the translation unit are the fields of `State`;
  every function takes the state and returns the new one.
* A result of `none` of `osso_mem_get_usage_now` / `osso_mem_get_usage` is
  the one undefined operation the code can reach: an integer division by zero.
* The watchdog variables, the installed `__malloc_hook` among them, are the
  fields of `Saw`; the allocator is an explicit input (`Heap`).  The bodies of
  the three watchdog functions are excluded by the preprocessor, so the
  functions are embedded with the empty bodies the program has.
-/

namespace Osso

/-! ## The C library functions the code calls -/

/-- The sentinel `NSIZE`, `(size_t)(-1)`. -/
def NSIZE (w : Nat) : Nat := 2 ^ w - 1

/-- The strings that successive calls `fgets(buf, n, fp)` store, in order, until
`fgets` returns `NULL`: each is cut after a newline or after `n - 1` characters.
The second argument is the part of the current string already read, reversed. -/
def fgets_all (n : Nat) : List Char → List Char → List (List Char)
  | [], cur => if cur = [] then [] else [cur.reverse]
  | c :: s, cur =>
    if c = '\n' ∨ n ≤ cur.length + 2 then (c :: cur).reverse :: fgets_all n s []
    else fgets_all n s (c :: cur)

/-- The first `fgets(buf, n, fp)` on a freshly opened stream: the string it
stores, or `none` when it returns `NULL` (nothing to read). -/
def fgets (n : Nat) (stream : List Char) : Option (List Char) :=
  (fgets_all n stream []).head?

/-- The function `isspace` in the C locale. -/
def isspace (c : Char) : Bool :=
  c = ' ' || c = '\t' || c = '\n' || c = '\x0b' || c = '\x0c' || c = '\r'

/-- The value of a character as a digit of `strtol`/`strtoul` (letters count
from 10), `none` for any other character. -/
def digit_value (c : Char) : Option Nat :=
  if 48 ≤ c.toNat ∧ c.toNat ≤ 57 then some (c.toNat - 48)
  else if 97 ≤ c.toNat ∧ c.toNat ≤ 122 then some (c.toNat - 97 + 10)
  else if 65 ≤ c.toNat ∧ c.toNat ≤ 90 then some (c.toNat - 65 + 10)
  else none

/-- The number written by the longest prefix of digits valid in `base`, as an
exact natural number, starting from the accumulator `acc`. -/
def digits_value (base : Nat) : List Char → Nat → Nat
  | [], acc => acc
  | c :: s, acc =>
    match digit_value c with
    | some d => if d < base then digits_value base s (acc * base + d) else acc
    | none => acc

/-- The subject sequence of `strtol`/`strtoul` called with base 0: white space
is skipped, an optional sign is read, then a `0x`/`0X` prefix followed by a
hexadecimal digit selects base 16, a leading `0` base 8, anything else base 10.
Returns whether a minus sign was read and the exact magnitude (0 when there is
no digit). -/
def strto_magnitude (s : List Char) : Bool × Nat :=
  let s1 := s.dropWhile isspace
  let neg := s1.head? = some '-'
  let s2 := if s1.head? = some '-' ∨ s1.head? = some '+' then s1.tail else s1
  match s2 with
  | '0' :: x :: h :: rest =>
    if (x = 'x' ∨ x = 'X') ∧ (digit_value h).any (· < 16) then
      (neg, digits_value 16 (h :: rest) 0)
    else (neg, digits_value 8 s2 0)
  | '0' :: _ => (neg, digits_value 8 s2 0)
  | _ => (neg, digits_value 10 s2 0)

/-- The call `strtoul(s, NULL, 0)`: a magnitude that does not fit yields
`ULONG_MAX`, a minus sign negates the value in `unsigned long`. -/
def strtoul (w : Nat) (s : List Char) : Nat :=
  let (neg, m) := strto_magnitude s
  if 2 ^ w ≤ m then 2 ^ w - 1
  else if neg then (2 ^ w - m) % 2 ^ w
  else m

/-- The call `strtol(s, NULL, 0)`: the value is clamped to `LONG_MIN .. LONG_MAX`. -/
def strtol (w : Nat) (s : List Char) : Int :=
  let (neg, m) := strto_magnitude s
  if neg then (if 2 ^ (w - 1) < m then -(2 ^ (w - 1) : Int) else -(m : Int))
  else (if 2 ^ (w - 1) ≤ m then (2 ^ (w - 1) : Int) - 1 else (m : Int))

/-- The call `strncmp(s1, s2, n)`: the difference of the first characters that
differ among the first `n`, 0 when there is none; the end of a list reads as
the terminating NUL. -/
def strncmp : List Char → List Char → Nat → Int
  | _, _, 0 => 0
  | s1, s2, n + 1 =>
    let c1 := s1.headD '\x00'
    let c2 := s2.headD '\x00'
    if c1 ≠ c2 then (c1.toNat : Int) - (c2.toNat : Int)
    else if c1 = '\x00' then 0
    else strncmp s1.tail s2.tail n

/-! ## Data model -/

/-- The files the code opens. -/
inductive File where
  /-- The file `/proc/meminfo`. -/
  | meminfo
  /-- The file `/proc/sys/vm/lowmem_free_pages`. -/
  | lowmem_free_pages
  /-- The file `/proc/sys/vm/lowmem_allowed_pages`. -/
  | lowmem_allowed_pages
  /-- The file `/proc/sys/vm/lowmem_deny_watermark`. -/
  | lowmem_deny_watermark
  /-- The file `/proc/sys/vm/lowmem_notify_high`. -/
  | lowmem_notify_high
  /-- The file `/proc/sys/vm/lowmem_notify_high_pages`. -/
  | lowmem_notify_high_pages
  /-- The file `/sys/kernel/high_watermark`. -/
  | high_watermark
  deriving DecidableEq

/-- What the system shows to one call of a public function: the clock, the
page size, the contents of the files (`none`: `fopen` fails), and the bytes
that the uninitialised array `line[256]` of `load_meminfo` holds on entry (one
for the call made by `osso_mem_get_usage_now`, one for the call made by
`setup_sys_values`). -/
structure Env where
  /-- The value of `time(NULL)`. -/
  time : Int
  /-- The value of `sysconf(_SC_PAGESIZE)`. -/
  pagesize : Nat
  /-- The contents of each file, `none` when it cannot be opened. -/
  fs : File → Option (List Char)
  /-- The initial bytes of `line` in the `load_meminfo` of `osso_mem_get_usage_now`. -/
  line_usage : List Char
  /-- The initial bytes of `line` in the `load_meminfo` of `setup_sys_values`. -/
  line_setup : List Char

/-- Modelled from the spec: the structure `osso_mem_usage_t` is declared in
`osso-mem.h`, which is not among the sources; the spec lists its fields as
`{total, free, used, util, deny, low, usable}`.  Every field is a `size_t`. -/
structure osso_mem_usage_t where
  /-- Total memory, RAM and swap, in bytes. -/
  total : Nat
  /-- Free memory in bytes. -/
  free : Nat
  /-- Used memory in bytes. -/
  used : Nat
  /-- Utilisation in percent. -/
  util : Nat
  /-- The deny limit in bytes. -/
  deny : Nat
  /-- The low-memory limit in bytes. -/
  low : Nat
  /-- The memory usable by applications, in bytes. -/
  usable : Nat
  deriving DecidableEq

/-- The result of `memset(usage, 0, sizeof(*usage))`. -/
def usage_zero : osso_mem_usage_t := ⟨0, 0, 0, 0, 0, 0, 0⟩

/-- The `static` variables of `osso-mem.c` that the memory functions use:
the four system limits, the cache of `osso_mem_get_usage` and the two values
kept by `osso_mem_get_free`. -/
structure State where
  /-- The variable `sys_avail_ram`. -/
  sys_avail_ram : Nat
  /-- The variable `sys_avail_memory`. -/
  sys_avail_memory : Nat
  /-- The variable `sys_deny_limit`. -/
  sys_deny_limit : Nat
  /-- The variable `sys_lowmem_limit`. -/
  sys_lowmem_limit : Nat
  /-- The variable `cache_stamp` of `osso_mem_get_usage`. -/
  cache_stamp : Int
  /-- The variable `cache_pfree` of `osso_mem_get_usage`. -/
  cache_pfree : Nat
  /-- The variable `cache_usage` of `osso_mem_get_usage`. -/
  cache_usage : osso_mem_usage_t
  /-- The variable `pg_high` of `osso_mem_get_free`. -/
  pg_high : Nat
  /-- The variable `pg_size` of `osso_mem_get_free`. -/
  pg_size : Nat
  deriving DecidableEq

/-- The state at program start: the four limits hold `NSIZE`, every other
static variable is zero. -/
def State.initial (w : Nat) : State :=
  { sys_avail_ram := NSIZE w, sys_avail_memory := NSIZE w, sys_deny_limit := NSIZE w,
    sys_lowmem_limit := NSIZE w, cache_stamp := 0, cache_pfree := 0,
    cache_usage := usage_zero, pg_high := 0, pg_size := 0 }

/-- The table `meminfo_labels`: each label with its length. -/
def meminfo_labels : List (List Char × Nat) :=
  [ ("MemTotal:".toList, 9), ("SwapTotal:".toList, 10), ("MemFree:".toList, 8),
    ("Buffers:".toList, 8), ("Cached:".toList, 7), ("SwapFree:".toList, 9) ]

/-- The index `ID_MEMTOTAL`. -/
def ID_MEMTOTAL : Nat := 0
/-- The index `ID_SWAPTOTAL`. -/
def ID_SWAPTOTAL : Nat := 1
/-- The index `ID_MEMFREE`. -/
def ID_MEMFREE : Nat := 2
/-- The index `ID_BUFFERS`. -/
def ID_BUFFERS : Nat := 3
/-- The index `ID_CACHED`. -/
def ID_CACHED : Nat := 4
/-- The index `ID_SWAPFREE`. -/
def ID_SWAPFREE : Nat := 5
/-- The constant `MAX_MEMINFO_LABELS`. -/
def MAX_MEMINFO_LABELS : Nat := 6

/-! ## Local functions of `osso-mem.c` -/

/-- The macro `DIVIDE(a,b)`, `((a) + ((b) >> 1)) / (b)`, on `size_t`; the sum
wraps.  C leaves `b = 0` undefined: a caller whose divisor is not a constant
tests it before it uses this value. -/
def DIVIDE (w a b : Nat) : Nat := ((a + (b >>> 1)) % 2 ^ w) / b

/-- The function `get_file_value`: the positive number at the start of the
file, `NSIZE` when the file cannot be opened, is empty, starts with a NUL or
does not hold a positive number. -/
def get_file_value (w : Nat) (env : Env) (filename : File) : Nat :=
  match env.fs filename with
  | some content =>
    -- `fgets(buffer, CAPACITY(buffer) - 1, fp)`, and `*buffer = 0` when it fails
    let buffer := (fgets 31 content).getD []
    if buffer.headD '\x00' ≠ '\x00' then
      let value := strtol w buffer
      if value > 0 then value.toNat % 2 ^ w else NSIZE w
    else NSIZE w
  | none => NSIZE w

/-- The `for` loop of `load_meminfo` on one line, from index `idx` on, over the
labels not yet tried: the values after the first index that is still zero and
whose label starts the line has been set, or `none` when no index matched.
The argument `line` is the whole buffer, so `line + length + 1` is read even
when it lies behind the terminating NUL. -/
def scan_labels (w : Nat) (line : List Char) (vals : List Nat) :
    List (List Char × Nat) → Nat → Option (List Nat)
  | [], _ => none
  | (name, length) :: labels, idx =>
    if vals.getD idx 0 ≠ 0 then scan_labels w line vals labels (idx + 1)
    else if strncmp line name length ≠ 0 then scan_labels w line vals labels (idx + 1)
    else some (vals.set idx (strtoul w (line.drop (length + 1))))

/-- The `while` loop of `load_meminfo` over the strings that `fgets` delivers:
`buf` is the array `line` as the previous iteration left it, `fgets` overwrites
its start with the string and a NUL. -/
def load_loop (w size : Nat) :
    List (List Char) → List Char → List Nat → Nat → List Nat × Nat
  | [], _, vals, counter => (vals, counter)
  | str :: rest, buf, vals, counter =>
    if counter < size then
      let line := str ++ '\x00' :: buf.drop (str.length + 1)
      match scan_labels w line vals (meminfo_labels.take size) 0 with
      | some vals' => load_loop w size rest line vals' (counter + 1)
      | none => load_loop w size rest line vals counter
    else (vals, counter)

/-- The function `load_meminfo`: the array `vals` after the call and the
returned counter.  `line` is what the local array holds on entry. -/
def load_meminfo (w : Nat) (env : Env) (line : List Char) (vals : List Nat) (size : Nat) :
    List Nat × Nat :=
  match env.fs File.meminfo with
  | some content => load_loop w size (fgets_all 256 content []) line vals 0
  | none => (vals, 0)

/-- The function `get_free_pages`. -/
def get_free_pages (w : Nat) (env : Env) : Nat :=
  get_file_value w env File.lowmem_free_pages

/-- The function `setup_sys_values`. -/
def setup_sys_values (w : Nat) (env : Env) (s : State) : State :=
  let pagesize := env.pagesize % 2 ^ w
  let allowed_pages := get_file_value w env File.lowmem_allowed_pages
  let loaded := load_meminfo w env env.line_setup [0] 1
  let total := loaded.1.getD 0 0
  let counter := loaded.2
  let avail_ram := if counter ≠ 0 ∧ total ≠ 0 then total >>> 2 else (64 <<< 10) % 2 ^ w
  let avail_memory :=
    if NSIZE w = allowed_pages then avail_ram else (allowed_pages * (pagesize >>> 10)) % 2 ^ w
  let deny0 :=
    if NSIZE w = allowed_pages then s.sys_deny_limit
    else get_file_value w env File.lowmem_deny_watermark
  let lowmem0 :=
    if NSIZE w = allowed_pages then s.sys_lowmem_limit
    else get_file_value w env File.lowmem_notify_high
  let deny_limit :=
    if NSIZE w = deny0 then avail_memory - (avail_memory >>> 5)
    else DIVIDE w ((avail_memory * deny0) % 2 ^ w) 100
  let lowmem_limit :=
    if NSIZE w = lowmem0 then deny_limit
    else DIVIDE w ((avail_memory * lowmem0) % 2 ^ w) 100
  { s with
    sys_avail_ram := (avail_ram <<< 10) % 2 ^ w
    sys_avail_memory := (avail_memory <<< 10) % 2 ^ w
    sys_deny_limit := (deny_limit <<< 10) % 2 ^ w
    sys_lowmem_limit := (lowmem_limit <<< 10) % 2 ^ w }

/-! ## Public functions -/

/-- What a call that takes the pointer `usage` leaves behind: the returned
`int`, the object the pointer refers to (`none` for a null pointer) and the
static variables. -/
structure Ret where
  /-- The value returned. -/
  code : Int
  /-- The object behind the pointer after the call. -/
  usage : Option osso_mem_usage_t
  /-- The static variables after the call. -/
  state : State
  deriving DecidableEq

/-- The unsigned subtraction `a - b` of two `size_t`, which wraps when `b > a`. -/
def size_sub (w a b : Nat) : Nat := (a + (2 ^ w - b % 2 ^ w)) % 2 ^ w

/-- The function `osso_mem_get_usage_now`.  `usage` is the object the pointer
refers to, `none` for a null pointer.  The result is `none` when the division
of `DIVIDE(100 * usage->used, usage->total)` has a zero divisor. -/
def osso_mem_get_usage_now (w : Nat) (env : Env) (s : State)
    (usage : Option osso_mem_usage_t) : Option Ret :=
  match usage with
  | none => some ⟨-1, none, s⟩
  | some _ =>
    let loaded := load_meminfo w env env.line_usage (List.replicate MAX_MEMINFO_LABELS 0)
      MAX_MEMINFO_LABELS
    let vals := loaded.1
    if loaded.2 = 0 then some ⟨-1, some usage_zero, s⟩
    else
      let s1 := if NSIZE w = s.sys_avail_memory then setup_sys_values w env s else s
      let total := (vals.getD ID_MEMTOTAL 0 + vals.getD ID_SWAPTOTAL 0) % 2 ^ w
      let free := (vals.getD ID_MEMFREE 0 + vals.getD ID_BUFFERS 0 +
        vals.getD ID_CACHED 0 + vals.getD ID_SWAPFREE 0) % 2 ^ w
      let used := size_sub w total free
      if total = 0 then none
      else
        let util := DIVIDE w ((100 * used) % 2 ^ w) total
        let total_b := (total <<< 10) % 2 ^ w
        let free_b := (free <<< 10) % 2 ^ w
        let used_b := (used <<< 10) % 2 ^ w
        let deny := s1.sys_deny_limit
        let low := s1.sys_lowmem_limit
        let usable0 :=
          if low ≠ 0 then size_sub w s1.sys_avail_memory low else s1.sys_avail_memory >>> 3
        let usable := if usable0 < free_b then free_b - usable0 else 0
        some ⟨0, some ⟨total_b, free_b, used_b, util, deny, low, usable⟩, s1⟩

/-- The function `osso_mem_get_usage`. -/
def osso_mem_get_usage (w : Nat) (env : Env) (s : State)
    (usage : Option osso_mem_usage_t) : Option Ret :=
  match usage with
  | none => some ⟨-1, none, s⟩
  | some _ =>
    let stamp := env.time
    if stamp = s.cache_stamp then some ⟨0, some s.cache_usage, s⟩
    else
      let pfree := get_free_pages w env
      if pfree = s.cache_pfree then
        some ⟨0, some s.cache_usage, { s with cache_stamp := stamp }⟩
      else
        match osso_mem_get_usage_now w env s usage with
        | none => none
        | some ⟨error, some u, s1⟩ =>
          if error = 0 then
            some ⟨error, some u, { s1 with cache_stamp := stamp, cache_pfree := pfree,
                                           cache_usage := u }⟩
          else some ⟨error, some u, s1⟩
        | some r => some r

/-- The function `osso_mem_get_avail_ram`: the value returned and the state. -/
def osso_mem_get_avail_ram (w : Nat) (env : Env) (s : State) : Nat × State :=
  let s1 := if NSIZE w = s.sys_avail_ram then setup_sys_values w env s else s
  (s1.sys_avail_ram, s1)

/-- The function `osso_mem_get_deny_limit`: the value returned and the state. -/
def osso_mem_get_deny_limit (w : Nat) (env : Env) (s : State) : Nat × State :=
  let s1 := if NSIZE w = s.sys_deny_limit then setup_sys_values w env s else s
  (s1.sys_deny_limit, s1)

/-- The function `osso_mem_get_lowmem_limit`: the value returned and the state. -/
def osso_mem_get_lowmem_limit (w : Nat) (env : Env) (s : State) : Nat × State :=
  let s1 := if NSIZE w = s.sys_lowmem_limit then setup_sys_values w env s else s
  (s1.sys_lowmem_limit, s1)

/-- The function `osso_mem_get_free`: the value returned and the state. -/
def osso_mem_get_free (w : Nat) (env : Env) (s : State) : Nat × State :=
  let pg_free := get_free_pages w env
  let s1 :=
    if s.pg_high = 0 then
      { s with pg_high := get_file_value w env File.lowmem_notify_high_pages
               pg_size := env.pagesize % 2 ^ w }
    else s
  if NSIZE w = s1.pg_high ∨ NSIZE w = pg_free then osso_mem_get_avail_ram w env s1
  else ((if pg_free > s1.pg_high then ((pg_free - s1.pg_high) * s1.pg_size) % 2 ^ w else 0), s1)

/-- The function `osso_mem_in_lowmem_state`. -/
def osso_mem_in_lowmem_state (w : Nat) (env : Env) : Int :=
  if 1 = get_file_value w env File.high_watermark then 1 else 0

/-! ## The allocation watchdog

In the source the bodies of `saw_malloc_hook`, `osso_mem_saw_enable` and
`osso_mem_saw_disable` stand between `#if 0` and `#endif`: the functions of the
program have empty bodies, and they are embedded here as the preprocessor leaves
them.  A function declared with a result whose body ends without a `return`
gives no value: its result is `none`. -/

/-- A value of the glibc variable `__malloc_hook`: `NULL`, the function
`saw_malloc_hook`, or any other hook function. -/
inductive Hook where
  /-- The null pointer: `malloc` allocates directly. -/
  | null
  /-- The address of `saw_malloc_hook`. -/
  | saw_malloc_hook
  /-- The address of another hook function. -/
  | other (f : Nat)
  deriving DecidableEq

/-- The variables of the watchdog: the `static` variables `saw_*` of
`osso-mem.c` and the glibc variable `__malloc_hook`.  A function pointer that
may be `NULL` is an `Option`. -/
structure Saw where
  /-- The variable `saw_max_block_size`. -/
  saw_max_block_size : Nat
  /-- The variable `saw_max_heap_size`. -/
  saw_max_heap_size : Nat
  /-- The variable `saw_user_oom_func`, `none` for `NULL`. -/
  saw_user_oom_func : Option Nat
  /-- The variable `saw_user_context`. -/
  saw_user_context : Nat
  /-- The variable `saw_old_malloc_hook`. -/
  saw_old_malloc_hook : Hook
  /-- The glibc variable `__malloc_hook`. -/
  __malloc_hook : Hook
  deriving DecidableEq

/-- The watchdog variables at program start, when the process has the hook
`hook` installed: the `static` variables are zero or `NULL`. -/
def Saw.initial (hook : Hook) : Saw :=
  { saw_max_block_size := 0, saw_max_heap_size := 0, saw_user_oom_func := none,
    saw_user_context := 0, saw_old_malloc_hook := Hook.null, __malloc_hook := hook }

/-- The function `saw_malloc_hook`: its body is empty, so it gives no value and
changes no variable. -/
def saw_malloc_hook : (size caller : Nat) → Saw → Option (Option Nat) × Saw :=
  fun _ _ saw => (none, saw)

/-- A sequence of calls of `osso_mem_get_usage`, one in each environment of the
list, each on the state the call before it left: the value returned and the
snapshot written by each call, and the last state.  The result is `none` when
one of the calls divides by zero. -/
def get_usage_calls (w : Nat) : List Env → State →
    Option (List (Int × Option osso_mem_usage_t) × State)
  | [], s => some ([], s)
  | env :: rest, s =>
    match osso_mem_get_usage w env s (some usage_zero) with
    | none => none
    | some r =>
      match get_usage_calls w rest r.state with
      | none => none
      | some (rs, t) => some ((r.code, r.usage) :: rs, t)

/-- The value of `sys_avail_ram` after line 251 of `setup_sys_values`, in
kilobytes. -/
def setup_avail_ram_kB (w : Nat) (env : Env) : Nat :=
  let loaded := load_meminfo w env env.line_setup [0] 1
  if loaded.2 ≠ 0 ∧ loaded.1.getD 0 0 ≠ 0 then loaded.1.getD 0 0 >>> 2
  else (64 <<< 10) % 2 ^ w

/-- The value of `sys_avail_memory` after lines 254-264 of `setup_sys_values`,
in kilobytes. -/
def setup_avail_memory_kB (w : Nat) (env : Env) : Nat :=
  if NSIZE w = get_file_value w env File.lowmem_allowed_pages then setup_avail_ram_kB w env
  else (get_file_value w env File.lowmem_allowed_pages * ((env.pagesize % 2 ^ w) >>> 10)) % 2 ^ w

/-- The value of `sys_deny_limit` when line 267 of `setup_sys_values` tests it:
the deny-watermark percentage read at line 262, or what the variable held
before when the allowed-pages value is unknown. -/
def setup_deny_percent (w : Nat) (env : Env) (s : State) : Nat :=
  if NSIZE w = get_file_value w env File.lowmem_allowed_pages then s.sys_deny_limit
  else get_file_value w env File.lowmem_deny_watermark

/-- The value of `sys_lowmem_limit` when line 272 of `setup_sys_values` tests it:
the notify-high percentage read at line 263, or what the variable held before
when the allowed-pages value is unknown. -/
def setup_lowmem_percent (w : Nat) (env : Env) (s : State) : Nat :=
  if NSIZE w = get_file_value w env File.lowmem_allowed_pages then s.sys_lowmem_limit
  else get_file_value w env File.lowmem_notify_high

/-- The value of `sys_deny_limit` after lines 267-270 of `setup_sys_values`, in
kilobytes. -/
def setup_deny_limit_kB (w : Nat) (env : Env) (s : State) : Nat :=
  if NSIZE w = setup_deny_percent w env s then
    setup_avail_memory_kB w env - (setup_avail_memory_kB w env >>> 5)
  else DIVIDE w ((setup_avail_memory_kB w env * setup_deny_percent w env s) % 2 ^ w) 100

/-- The value of `sys_lowmem_limit` after lines 272-280 of `setup_sys_values`,
in kilobytes. -/
def setup_lowmem_limit_kB (w : Nat) (env : Env) (s : State) : Nat :=
  if NSIZE w = setup_lowmem_percent w env s then setup_deny_limit_kB w env s
  else DIVIDE w ((setup_avail_memory_kB w env * setup_lowmem_percent w env s) % 2 ^ w) 100

/-- The index at which the `for` loop of `load_meminfo` breaks on one line (the
field the line is attributed to), `none` when it runs to the end: the same
loop as `scan_labels`, returning the index instead of the values. -/
def scan_index (line : List Char) (vals : List Nat) :
    List (List Char × Nat) → Nat → Option Nat
  | [], _ => none
  | (name, length) :: labels, idx =>
    if vals.getD idx 0 ≠ 0 then scan_index line vals labels (idx + 1)
    else if strncmp line name length ≠ 0 then scan_index line vals labels (idx + 1)
    else some idx

/-! ## Concrete inputs -/

/-- An environment given by the clock and the text of the files that exist
(any file not listed cannot be opened); the page size is 4096 and the line
buffers start out empty. -/
def env_of (time : Int) (files : List (File × String)) : Env :=
  { time := time, pagesize := 4096,
    fs := fun f => (files.lookup f).map String.toList,
    line_usage := [], line_setup := [] }

/-- The meminfo text of the spec's example: `MemTotal=1000000`, `MemFree=200000`,
`Buffers=50000`, `Cached=50000`, `SwapTotal=0`, `SwapFree=0`. -/
def meminfo_example : String :=
  "MemTotal:        1000000 kB\nMemFree:          200000 kB\nBuffers:           50000 kB\nCached:            50000 kB\nSwapTotal:             0 kB\nSwapFree:              0 kB\n"

/-- The snapshot computed from `meminfo_example` when no limit file exists. -/
def usage_example : osso_mem_usage_t :=
  ⟨1024000000, 307200000, 716800000, 70, 248000512, 248000512, 299200512⟩

/-- The state of a 32-bit process after its first recompute on `meminfo_example`
with no limit file: the limits are calibrated, the cache is still empty. -/
def state_calibrated : State :=
  { State.initial 32 with sys_avail_ram := 256000000, sys_avail_memory := 256000000,
                          sys_deny_limit := 248000512, sys_lowmem_limit := 248000512 }

/-- The state `state_calibrated` with `usage_example` cached in second 100 at
5000 free pages. -/
def state_cached : State :=
  { state_calibrated with cache_stamp := 100, cache_pfree := 5000,
                          cache_usage := usage_example }

/-- Second 100: `meminfo_example` and 5000 free pages. -/
def env_first : Env :=
  env_of 100 [(File.meminfo, meminfo_example), (File.lowmem_free_pages, "5000\n")]

/-- Still second 100: less free memory and 4000 free pages. -/
def env_later : Env :=
  env_of 100 [(File.meminfo, "MemTotal:        1000000 kB\nMemFree:          100000 kB\n"),
              (File.lowmem_free_pages, "4000\n")]

/-- Second 101: the memory of `env_later`, and again 5000 free pages. -/
def env_next : Env :=
  env_of 101 [(File.meminfo, "MemTotal:        1000000 kB\nMemFree:          100000 kB\n"),
              (File.lowmem_free_pages, "5000\n")]

/-- The snapshot computed from the meminfo text of `env_later` and `env_next`
in `state_calibrated`. -/
def usage_later : osso_mem_usage_t :=
  ⟨1024000000, 102400000, 921600000, 90, 248000512, 248000512, 94400512⟩

/-! ## Arithmetic of `size_t` -/

/-- The shift `x << 10` multiplies by 1024. -/
theorem shiftLeft_ten (x : Nat) : x <<< 10 = x * 1024 := by
  rw [Nat.shiftLeft_eq]

/-- A `size_t` difference is a `size_t`. -/
theorem size_sub_lt (w a b : Nat) : size_sub w a b < 2 ^ w :=
  Nat.mod_lt _ (Nat.pos_pow_of_pos w (by decide))

/-- The `size_t` difference is the exact one when nothing is borrowed. -/
theorem size_sub_exact (w a b : Nat) (ha : a < 2 ^ w) (hb : b ≤ a) :
    size_sub w a b = a - b := by
  unfold size_sub
  have hbm : b % 2 ^ w = b := Nat.mod_eq_of_lt (by omega)
  rw [hbm]
  have : a + (2 ^ w - b) = (a - b) + 2 ^ w := by omega
  rw [this, Nat.add_mod_right]
  exact Nat.mod_eq_of_lt (by omega)

/-- Scaling a `size_t` difference, as `<<= 10` does, commutes with scaling its
operands: all of it is arithmetic modulo `2 ^ w`. -/
theorem size_sub_scale (w a b k : Nat) :
    (size_sub w a b * k) % 2 ^ w = size_sub w ((a * k) % 2 ^ w) ((b * k) % 2 ^ w) := by
  unfold size_sub
  have hpos : 0 < 2 ^ w := Nat.pos_pow_of_pos w (by decide)
  have h1 : b % 2 ^ w ≤ 2 ^ w := (Nat.mod_lt _ hpos).le
  have h2 : (b * k) % 2 ^ w % 2 ^ w ≤ 2 ^ w := (Nat.mod_lt _ hpos).le
  have hz : ((2 : ZMod (2 ^ w)) ^ w) = 0 := by
    have h := ZMod.natCast_self (2 ^ w)
    push_cast at h
    exact h
  rw [← ZMod.natCast_eq_natCast_iff']
  push_cast [Nat.cast_sub h1, Nat.cast_sub h2, ZMod.natCast_mod, hz]
  ring

/-! ## What a successful full recompute returns -/

/-- Unfolding of `osso_mem_get_usage_now` on a non-null pointer, in terms of
the values and the counter that `load_meminfo` delivers. -/
theorem usage_now_unfold (w : Nat) (env : Env) (s : State) (p u : osso_mem_usage_t)
    (s' : State) (vals : List Nat) (n : Nat)
    (hload : load_meminfo w env env.line_usage (List.replicate MAX_MEMINFO_LABELS 0)
      MAX_MEMINFO_LABELS = (vals, n))
    (hok : osso_mem_get_usage_now w env s (some p) = some ⟨0, some u, s'⟩) :
    n ≠ 0 ∧
    (vals.getD ID_MEMTOTAL 0 + vals.getD ID_SWAPTOTAL 0) % 2 ^ w ≠ 0 ∧
    s' = (if NSIZE w = s.sys_avail_memory then setup_sys_values w env s else s) ∧
    u.total = ((vals.getD ID_MEMTOTAL 0 + vals.getD ID_SWAPTOTAL 0) % 2 ^ w * 1024) % 2 ^ w ∧
    u.free = ((vals.getD ID_MEMFREE 0 + vals.getD ID_BUFFERS 0 + vals.getD ID_CACHED 0 +
      vals.getD ID_SWAPFREE 0) % 2 ^ w * 1024) % 2 ^ w ∧
    u.used = (size_sub w ((vals.getD ID_MEMTOTAL 0 + vals.getD ID_SWAPTOTAL 0) % 2 ^ w)
      ((vals.getD ID_MEMFREE 0 + vals.getD ID_BUFFERS 0 + vals.getD ID_CACHED 0 +
        vals.getD ID_SWAPFREE 0) % 2 ^ w) * 1024) % 2 ^ w ∧
    u.util = DIVIDE w ((100 * size_sub w
        ((vals.getD ID_MEMTOTAL 0 + vals.getD ID_SWAPTOTAL 0) % 2 ^ w)
        ((vals.getD ID_MEMFREE 0 + vals.getD ID_BUFFERS 0 + vals.getD ID_CACHED 0 +
          vals.getD ID_SWAPFREE 0) % 2 ^ w)) % 2 ^ w)
      ((vals.getD ID_MEMTOTAL 0 + vals.getD ID_SWAPTOTAL 0) % 2 ^ w) ∧
    u.deny = s'.sys_deny_limit ∧
    u.low = s'.sys_lowmem_limit ∧
    u.usable =
      (if (if u.low ≠ 0 then size_sub w s'.sys_avail_memory u.low
            else s'.sys_avail_memory >>> 3) < u.free
       then u.free - (if u.low ≠ 0 then size_sub w s'.sys_avail_memory u.low
            else s'.sys_avail_memory >>> 3)
       else 0) := by
  unfold osso_mem_get_usage_now at hok
  simp only [hload] at hok
  by_cases hn : n = 0
  · rw [if_pos hn] at hok
    exact absurd (congrArg Ret.code (Option.some.inj hok)) (by simp)
  · rw [if_neg hn] at hok
    by_cases ht : (vals.getD ID_MEMTOTAL 0 + vals.getD ID_SWAPTOTAL 0) % 2 ^ w = 0
    · rw [if_pos ht] at hok
      cases hok
    · rw [if_neg ht] at hok
      have hr := Option.some.inj hok
      have hu := Option.some.inj (congrArg Ret.usage hr)
      have hs := congrArg Ret.state hr
      simp only at hu hs
      subst hs
      subst hu
      refine ⟨hn, ht, rfl, ?_, ?_, ?_, rfl, rfl, rfl, rfl⟩ <;> simp only [shiftLeft_ten]

/-- Conversely, a call with a non-null pointer succeeds as soon as a field was
matched and `MemTotal + SwapTotal` is not zero in `size_t`. -/
theorem usage_now_succeeds (w : Nat) (env : Env) (s : State) (p : osso_mem_usage_t)
    (vals : List Nat) (n : Nat)
    (hload : load_meminfo w env env.line_usage (List.replicate MAX_MEMINFO_LABELS 0)
      MAX_MEMINFO_LABELS = (vals, n))
    (hn : n ≠ 0)
    (ht : (vals.getD ID_MEMTOTAL 0 + vals.getD ID_SWAPTOTAL 0) % 2 ^ w ≠ 0) :
    ∃ u s', osso_mem_get_usage_now w env s (some p) = some ⟨0, some u, s'⟩ := by
  unfold osso_mem_get_usage_now
  simp only [hload]
  rw [if_neg hn, if_neg ht]
  exact ⟨_, _, rfl⟩

/-! ## Claims about the full recompute -/

/-- The values that `load_meminfo` reads from the example text, on 32 bits. -/
theorem load_example_32 :
    load_meminfo 32 (env_of 0 [(File.meminfo, meminfo_example)]) []
      (List.replicate MAX_MEMINFO_LABELS 0) MAX_MEMINFO_LABELS
      = ([1000000, 0, 200000, 50000, 50000, 0], 6) := by
  decide

/-- The values that `load_meminfo` reads from the example text, on 64 bits. -/
theorem load_example_64 :
    load_meminfo 64 (env_of 0 [(File.meminfo, meminfo_example)]) []
      (List.replicate MAX_MEMINFO_LABELS 0) MAX_MEMINFO_LABELS
      = ([1000000, 0, 200000, 50000, 50000, 0], 6) := by
  decide

/-- C1 as stated fails: with 32-bit `size_t` and `MemTotal: 4194304 kB` (4 GiB) the
call succeeds and reports `total = 0`, not `(MemTotal + SwapTotal) * 1024 =
4294967296`; with 64-bit `size_t` the same happens for `MemTotal = 2 ^ 54` kB. -/
theorem usage_now_total_wraps :
    (load_meminfo 32
        (env_of 0 [(File.meminfo, "MemTotal:        4194304 kB\nMemFree:         1048576 kB\n")]) []
        (List.replicate MAX_MEMINFO_LABELS 0) MAX_MEMINFO_LABELS
      = ([4194304, 0, 1048576, 0, 0, 0], 2) ∧
     (osso_mem_get_usage_now 32
        (env_of 0 [(File.meminfo, "MemTotal:        4194304 kB\nMemFree:         1048576 kB\n")])
        (State.initial 32) (some usage_zero)).map Ret.code = some 0 ∧
     ((osso_mem_get_usage_now 32
        (env_of 0 [(File.meminfo, "MemTotal:        4194304 kB\nMemFree:         1048576 kB\n")])
        (State.initial 32) (some usage_zero)).bind Ret.usage).map osso_mem_usage_t.total
      = some 0 ∧
     (0 : Nat) ≠ (4194304 + 0) * 1024) ∧
    (load_meminfo 64
        (env_of 0 [(File.meminfo, "MemTotal: 18014398509481984 kB\nMemFree: 1048576 kB\n")]) []
        (List.replicate MAX_MEMINFO_LABELS 0) MAX_MEMINFO_LABELS
      = ([18014398509481984, 0, 1048576, 0, 0, 0], 2) ∧
     (osso_mem_get_usage_now 64
        (env_of 0 [(File.meminfo, "MemTotal: 18014398509481984 kB\nMemFree: 1048576 kB\n")])
        (State.initial 64) (some usage_zero)).map Ret.code = some 0 ∧
     ((osso_mem_get_usage_now 64
        (env_of 0 [(File.meminfo, "MemTotal: 18014398509481984 kB\nMemFree: 1048576 kB\n")])
        (State.initial 64) (some usage_zero)).bind Ret.usage).map osso_mem_usage_t.total
      = some 0 ∧
     (0 : Nat) ≠ (18014398509481984 + 0) * 1024) := by
  decide

/-- C1 (amended): on every successful `osso_mem_get_usage_now` the snapshot has
`total = (MemTotal + SwapTotal) * 1024` and `free = (MemFree + Buffers + Cached +
SwapFree) * 1024` reduced modulo `2 ^ w` (unmatched fields count as 0), so exactly
these byte counts whenever they fit in a `size_t`; `used` is `total - free` in
`size_t` arithmetic, so exactly `total - free` whenever `free ≤ total`.  For the
example text the reported `used` is `700000 * 1024`, on 32 and on 64 bits and
from every state. -/
theorem usage_now_total_free_used (w : Nat) (env : Env) (s : State) (p u : osso_mem_usage_t)
    (s' : State) (vals : List Nat) (n : Nat)
    (hload : load_meminfo w env env.line_usage (List.replicate MAX_MEMINFO_LABELS 0)
      MAX_MEMINFO_LABELS = (vals, n))
    (hok : osso_mem_get_usage_now w env s (some p) = some ⟨0, some u, s'⟩) :
    u.total = ((vals.getD ID_MEMTOTAL 0 + vals.getD ID_SWAPTOTAL 0) * 1024) % 2 ^ w ∧
    u.free = ((vals.getD ID_MEMFREE 0 + vals.getD ID_BUFFERS 0 + vals.getD ID_CACHED 0 +
      vals.getD ID_SWAPFREE 0) * 1024) % 2 ^ w ∧
    u.used = size_sub w u.total u.free ∧
    ((vals.getD ID_MEMTOTAL 0 + vals.getD ID_SWAPTOTAL 0) * 1024 < 2 ^ w →
      u.total = (vals.getD ID_MEMTOTAL 0 + vals.getD ID_SWAPTOTAL 0) * 1024) ∧
    ((vals.getD ID_MEMFREE 0 + vals.getD ID_BUFFERS 0 + vals.getD ID_CACHED 0 +
        vals.getD ID_SWAPFREE 0) * 1024 < 2 ^ w →
      u.free = (vals.getD ID_MEMFREE 0 + vals.getD ID_BUFFERS 0 + vals.getD ID_CACHED 0 +
        vals.getD ID_SWAPFREE 0) * 1024) ∧
    (u.free ≤ u.total → u.used = u.total - u.free) ∧
    (∀ (s0 : State) (p0 : osso_mem_usage_t),
      ((osso_mem_get_usage_now 32 (env_of 0 [(File.meminfo, meminfo_example)]) s0 (some p0)).bind
        Ret.usage).map osso_mem_usage_t.used = some (700000 * 1024) ∧
      ((osso_mem_get_usage_now 64 (env_of 0 [(File.meminfo, meminfo_example)]) s0 (some p0)).bind
        Ret.usage).map osso_mem_usage_t.used = some (700000 * 1024)) := by
  obtain ⟨-, -, -, htot, hfree, hused, -⟩ := usage_now_unfold w env s p u s' vals n hload hok
  have hpos : 0 < 2 ^ w := Nat.pos_pow_of_pos w (by decide)
  have htot' : u.total = ((vals.getD ID_MEMTOTAL 0 + vals.getD ID_SWAPTOTAL 0) * 1024) % 2 ^ w := by
    rw [htot, Nat.mul_mod, Nat.mod_mod, ← Nat.mul_mod]
  have hfree' : u.free = ((vals.getD ID_MEMFREE 0 + vals.getD ID_BUFFERS 0 +
      vals.getD ID_CACHED 0 + vals.getD ID_SWAPFREE 0) * 1024) % 2 ^ w := by
    rw [hfree, Nat.mul_mod, Nat.mod_mod, ← Nat.mul_mod]
  have hused' : u.used = size_sub w u.total u.free := by
    rw [hused, size_sub_scale, htot, hfree]
  refine ⟨htot', hfree', hused', ?_, ?_, ?_, ?_⟩
  · intro h
    rw [htot', Nat.mod_eq_of_lt h]
  · intro h
    rw [hfree', Nat.mod_eq_of_lt h]
  · intro h
    rw [hused']
    exact size_sub_exact w _ _ (by rw [htot']; exact Nat.mod_lt _ hpos) h
  · intro s0 p0
    constructor
    · obtain ⟨u0, s1, h0⟩ := usage_now_succeeds 32 (env_of 0 [(File.meminfo, meminfo_example)]) s0 p0
        _ 6 load_example_32 (by decide) (by decide)
      have h1 := (usage_now_unfold 32 _ s0 p0 u0 s1 _ 6 load_example_32 h0).2.2.2.2.2.1
      rw [h0]
      show some u0.used = some (700000 * 1024)
      rw [h1]
      decide
    · obtain ⟨u0, s1, h0⟩ := usage_now_succeeds 64 (env_of 0 [(File.meminfo, meminfo_example)]) s0 p0
        _ 6 load_example_64 (by decide) (by decide)
      have h1 := (usage_now_unfold 64 _ s0 p0 u0 s1 _ 6 load_example_64 h0).2.2.2.2.2.1
      rw [h0]
      show some u0.used = some (700000 * 1024)
      rw [h1]
      decide

/-- Witness for C1: the example text on 32 bits, where nothing wraps. -/
theorem usage_now_total_free_used_witness :
    osso_mem_get_usage_now 32 (env_of 0 [(File.meminfo, meminfo_example)]) (State.initial 32)
        (some usage_zero)
      = some ⟨0, some usage_example, state_calibrated⟩ ∧
    (1024000000 : Nat) = (1000000 + 0) * 1024 ∧
    (307200000 : Nat) = (200000 + 50000 + 50000 + 0) * 1024 ∧
    (716800000 : Nat) = 1024000000 - 307200000 :=
  have h := usage_now_total_free_used 32 (env_of 0 [(File.meminfo, meminfo_example)])
    (State.initial 32) usage_zero usage_example state_calibrated
    [1000000, 0, 200000, 50000, 50000, 0] 6 load_example_32 (by decide)
  ⟨by decide, h.2.2.2.1 (by decide), h.2.2.2.2.1 (by decide), h.2.2.2.2.2.1 (by decide)⟩

/-- C2 as stated fails: with 32-bit `size_t` and `MemTotal: 50000000 kB` alone the
product `100 * used_kB` wraps and the call reports `util = 14`, while
`floor((100 * used_kB + floor(total_kB / 2)) / total_kB)` is 100; with 64-bit
`size_t` and `MemTotal: 200000000000000000 kB` it reports `util = 8`. -/
theorem usage_now_util_wraps :
    (load_meminfo 32 (env_of 0 [(File.meminfo, "MemTotal:       50000000 kB\n")]) []
        (List.replicate MAX_MEMINFO_LABELS 0) MAX_MEMINFO_LABELS
      = ([50000000, 0, 0, 0, 0, 0], 1) ∧
     (osso_mem_get_usage_now 32 (env_of 0 [(File.meminfo, "MemTotal:       50000000 kB\n")])
        (State.initial 32) (some usage_zero)).map Ret.code = some 0 ∧
     ((osso_mem_get_usage_now 32 (env_of 0 [(File.meminfo, "MemTotal:       50000000 kB\n")])
        (State.initial 32) (some usage_zero)).bind Ret.usage).map osso_mem_usage_t.util
      = some 14 ∧
     (100 * 50000000 + 50000000 / 2) / 50000000 = 100) ∧
    (load_meminfo 64 (env_of 0 [(File.meminfo, "MemTotal: 200000000000000000 kB\n")]) []
        (List.replicate MAX_MEMINFO_LABELS 0) MAX_MEMINFO_LABELS
      = ([200000000000000000, 0, 0, 0, 0, 0], 1) ∧
     (osso_mem_get_usage_now 64 (env_of 0 [(File.meminfo, "MemTotal: 200000000000000000 kB\n")])
        (State.initial 64) (some usage_zero)).map Ret.code = some 0 ∧
     ((osso_mem_get_usage_now 64 (env_of 0 [(File.meminfo, "MemTotal: 200000000000000000 kB\n")])
        (State.initial 64) (some usage_zero)).bind Ret.usage).map osso_mem_usage_t.util
      = some 8 ∧
     (100 * 200000000000000000 + 200000000000000000 / 2) / 200000000000000000 = 100) := by
  decide

/-- C2 (amended): on every successful `osso_mem_get_usage_now`, with `total_kB`,
`free_kB` and `used_kB` the kilobyte values before the byte conversion,
`total_kB` is positive and `util` is `DIVIDE(100 * used_kB, total_kB)` in `size_t`
arithmetic; provided `100 * used_kB + floor(total_kB / 2)` fits in a `size_t` it is
`floor((100 * used_kB + floor(total_kB / 2)) / total_kB)`, that is
`100 * used_kB / total_kB` rounded to the nearest integer, halves up.  For the
example text `util` is 70, on 32 and on 64 bits and from every state. -/
theorem usage_now_util (w : Nat) (env : Env) (s : State) (p u : osso_mem_usage_t)
    (s' : State) (vals : List Nat) (n total_kB free_kB used_kB : Nat)
    (hload : load_meminfo w env env.line_usage (List.replicate MAX_MEMINFO_LABELS 0)
      MAX_MEMINFO_LABELS = (vals, n))
    (hok : osso_mem_get_usage_now w env s (some p) = some ⟨0, some u, s'⟩)
    (htotal : total_kB = (vals.getD ID_MEMTOTAL 0 + vals.getD ID_SWAPTOTAL 0) % 2 ^ w)
    (hfree : free_kB = (vals.getD ID_MEMFREE 0 + vals.getD ID_BUFFERS 0 +
      vals.getD ID_CACHED 0 + vals.getD ID_SWAPFREE 0) % 2 ^ w)
    (hused : used_kB = size_sub w total_kB free_kB) :
    0 < total_kB ∧
    u.util = (((100 * used_kB) % 2 ^ w + total_kB / 2) % 2 ^ w) / total_kB ∧
    (100 * used_kB + total_kB / 2 < 2 ^ w →
      u.util = (100 * used_kB + total_kB / 2) / total_kB ∧
      2 * u.util * total_kB ≤ 2 * (100 * used_kB) + total_kB ∧
      2 * (100 * used_kB) + total_kB < 2 * (u.util + 1) * total_kB) ∧
    (∀ (s0 : State) (p0 : osso_mem_usage_t),
      ((osso_mem_get_usage_now 32 (env_of 0 [(File.meminfo, meminfo_example)]) s0 (some p0)).bind
        Ret.usage).map osso_mem_usage_t.util = some 70 ∧
      ((osso_mem_get_usage_now 64 (env_of 0 [(File.meminfo, meminfo_example)]) s0 (some p0)).bind
        Ret.usage).map osso_mem_usage_t.util = some 70) := by
  obtain ⟨-, ht, -, -, -, -, hutil, -⟩ := usage_now_unfold w env s p u s' vals n hload hok
  rw [← htotal] at ht hutil
  rw [← hfree, ← hused] at hutil
  have hpos : 0 < total_kB := Nat.pos_of_ne_zero ht
  have hu : u.util = (((100 * used_kB) % 2 ^ w + total_kB / 2) % 2 ^ w) / total_kB := by
    rw [hutil, DIVIDE, Nat.shiftRight_eq_div_pow]
  refine ⟨hpos, hu, ?_, ?_⟩
  · intro hfit
    have h1 : (100 * used_kB) % 2 ^ w = 100 * used_kB := Nat.mod_eq_of_lt (by omega)
    have h2 : u.util = (100 * used_kB + total_kB / 2) / total_kB := by
      rw [hu, h1, Nat.mod_eq_of_lt hfit]
    refine ⟨h2, ?_, ?_⟩
    · have h3 := Nat.div_mul_le_self (100 * used_kB + total_kB / 2) total_kB
      rw [← h2] at h3
      have h4 : 2 * u.util * total_kB = 2 * (u.util * total_kB) := by ring
      omega
    · have h3 := Nat.lt_div_mul_add hpos (a := 100 * used_kB + total_kB / 2)
      rw [← h2] at h3
      have h4 : 2 * (u.util + 1) * total_kB = 2 * (u.util * total_kB + total_kB) := by ring
      omega
  · intro s0 p0
    constructor
    · obtain ⟨u0, s1, h0⟩ := usage_now_succeeds 32 (env_of 0 [(File.meminfo, meminfo_example)])
        s0 p0 _ 6 load_example_32 (by decide) (by decide)
      have h1 := (usage_now_unfold 32 _ s0 p0 u0 s1 _ 6 load_example_32 h0).2.2.2.2.2.2.1
      rw [h0]
      show some u0.util = some 70
      rw [h1]
      decide
    · obtain ⟨u0, s1, h0⟩ := usage_now_succeeds 64 (env_of 0 [(File.meminfo, meminfo_example)])
        s0 p0 _ 6 load_example_64 (by decide) (by decide)
      have h1 := (usage_now_unfold 64 _ s0 p0 u0 s1 _ 6 load_example_64 h0).2.2.2.2.2.2.1
      rw [h0]
      show some u0.util = some 70
      rw [h1]
      decide

/-- Witness for C2: the example text on 32 bits gives
`total_kB = 1000000`, `used_kB = 700000` and `util = 70`. -/
theorem usage_now_util_witness :
    osso_mem_get_usage_now 32 (env_of 0 [(File.meminfo, meminfo_example)]) (State.initial 32)
        (some usage_zero)
      = some ⟨0, some usage_example, state_calibrated⟩ ∧
    (70 : Nat) = (100 * 700000 + 1000000 / 2) / 1000000 :=
  have h := usage_now_util 32 (env_of 0 [(File.meminfo, meminfo_example)])
    (State.initial 32) usage_zero usage_example state_calibrated
    [1000000, 0, 200000, 50000, 50000, 0] 6 1000000 300000 700000 load_example_32 (by decide)
    (by decide) (by decide) (by decide)
  ⟨by decide, (h.2.2.1 (by decide)).1⟩

/-- A matched field with `MemTotal + SwapTotal = 0` makes `osso_mem_get_usage_now`
divide by zero, from every state and at every width. -/
theorem usage_now_zero_total (w : Nat) (env : Env) (s : State) (p : osso_mem_usage_t)
    (vals : List Nat) (n : Nat)
    (hload : load_meminfo w env env.line_usage (List.replicate MAX_MEMINFO_LABELS 0)
      MAX_MEMINFO_LABELS = (vals, n))
    (hn : n ≠ 0)
    (ht : (vals.getD ID_MEMTOTAL 0 + vals.getD ID_SWAPTOTAL 0) % 2 ^ w = 0) :
    osso_mem_get_usage_now w env s (some p) = none := by
  unfold osso_mem_get_usage_now
  simp only [hload]
  rw [if_neg hn, if_pos ht]

/-- C3 (the code divides by zero): when `/proc/meminfo` holds only a `MemFree`
line, one field is matched, `MemTotal + SwapTotal` is 0 and the call ends in the
division `DIVIDE(100 * used, 0)`: it neither succeeds nor reports `util = 0`.
This holds on 32 and on 64 bits. -/
theorem usage_now_only_memfree :
    load_meminfo 32 (env_of 0 [(File.meminfo, "MemFree:            100 kB\n")]) []
        (List.replicate MAX_MEMINFO_LABELS 0) MAX_MEMINFO_LABELS
      = ([0, 0, 100, 0, 0, 0], 1) ∧
    osso_mem_get_usage_now 32 (env_of 0 [(File.meminfo, "MemFree:            100 kB\n")])
        (State.initial 32) (some usage_zero) = none ∧
    load_meminfo 64 (env_of 0 [(File.meminfo, "MemFree:            100 kB\n")]) []
        (List.replicate MAX_MEMINFO_LABELS 0) MAX_MEMINFO_LABELS
      = ([0, 0, 100, 0, 0, 0], 1) ∧
    osso_mem_get_usage_now 64 (env_of 0 [(File.meminfo, "MemFree:            100 kB\n")])
        (State.initial 64) (some usage_zero) = none := by
  decide

/-- C4: on every successful `osso_mem_get_usage_now`, with `headroom` the `size_t`
difference `avail_memory - low` when the snapshot's `low` is nonzero and
`avail_memory >> 3` otherwise, `usable` is `free - headroom` if `headroom < free`
and 0 otherwise; so `usable` is computed without wrapping below zero and never
exceeds `free`.  The difference is the exact one whenever `low ≤ avail_memory`. -/
theorem usage_now_usable (w : Nat) (env : Env) (s : State) (p u : osso_mem_usage_t)
    (s' : State) (headroom : Nat)
    (hok : osso_mem_get_usage_now w env s (some p) = some ⟨0, some u, s'⟩)
    (hhead : headroom = if u.low ≠ 0 then size_sub w s'.sys_avail_memory u.low
      else s'.sys_avail_memory >>> 3) :
    u.usable = (if headroom < u.free then u.free - headroom else 0) ∧
    (headroom < u.free → u.usable + headroom = u.free) ∧
    u.usable ≤ u.free ∧
    (u.low ≠ 0 → u.low ≤ s'.sys_avail_memory → s'.sys_avail_memory < 2 ^ w →
      headroom = s'.sys_avail_memory - u.low) := by
  have h := (usage_now_unfold w env s p u s' _ _ rfl hok).2.2.2.2.2.2.2.2.2
  rw [← hhead] at h
  refine ⟨h, ?_, ?_, ?_⟩
  · intro hlt
    rw [h, if_pos hlt]
    omega
  · rw [h]
    split_ifs <;> omega
  · intro hlow hle hlt
    rw [hhead, if_pos hlow]
    exact size_sub_exact w _ _ hlt hle

/-- Witness for C4: the example text on 32 bits, where
`avail_memory = 256000000`, `low = 248000512` and `free = 307200000`. -/
theorem usage_now_usable_witness :
    osso_mem_get_usage_now 32 (env_of 0 [(File.meminfo, meminfo_example)]) (State.initial 32)
        (some usage_zero)
      = some ⟨0, some usage_example, state_calibrated⟩ ∧
    (299200512 : Nat) = (if 7999488 < 307200000 then 307200000 - 7999488 else 0) ∧
    (7999488 : Nat) = 256000000 - 248000512 :=
  have h := usage_now_usable 32 (env_of 0 [(File.meminfo, meminfo_example)])
    (State.initial 32) usage_zero usage_example state_calibrated
    7999488 (by decide) (by decide)
  ⟨by decide, h.1, h.2.2.2 (by decide) (by decide) (by decide)⟩

/-! ## The cache of `osso_mem_get_usage` -/

/-- Calibration leaves the cache of `osso_mem_get_usage` alone. -/
theorem setup_cache (w : Nat) (env : Env) (s : State) :
    (setup_sys_values w env s).cache_stamp = s.cache_stamp ∧
    (setup_sys_values w env s).cache_pfree = s.cache_pfree ∧
    (setup_sys_values w env s).cache_usage = s.cache_usage :=
  ⟨rfl, rfl, rfl⟩

/-- The three ways a call of `osso_mem_get_usage_now` with a non-null pointer
can end: no field matched, a division by zero, or success. -/
theorem usage_now_cases (w : Nat) (env : Env) (s : State) (p : osso_mem_usage_t) :
    osso_mem_get_usage_now w env s (some p) = some ⟨-1, some usage_zero, s⟩ ∨
    osso_mem_get_usage_now w env s (some p) = none ∨
    ∃ u, osso_mem_get_usage_now w env s (some p)
      = some ⟨0, some u, if NSIZE w = s.sys_avail_memory then setup_sys_values w env s else s⟩ := by
  unfold osso_mem_get_usage_now
  simp only
  by_cases hn : (load_meminfo w env env.line_usage (List.replicate MAX_MEMINFO_LABELS 0)
      MAX_MEMINFO_LABELS).2 = 0
  · rw [if_pos hn]
    exact Or.inl rfl
  · rw [if_neg hn]
    by_cases ht : ((load_meminfo w env env.line_usage (List.replicate MAX_MEMINFO_LABELS 0)
        MAX_MEMINFO_LABELS).1.getD ID_MEMTOTAL 0 +
        (load_meminfo w env env.line_usage (List.replicate MAX_MEMINFO_LABELS 0)
        MAX_MEMINFO_LABELS).1.getD ID_SWAPTOTAL 0) % 2 ^ w = 0
    · rw [if_pos ht]
      exact Or.inr (Or.inl rfl)
    · rw [if_neg ht]
      exact Or.inr (Or.inr ⟨_, rfl⟩)

/-- The state after `osso_mem_get_usage_now` is the state before, calibrated
when `sys_avail_memory` held `NSIZE` and the call succeeded. -/
theorem usage_now_state (w : Nat) (env : Env) (s : State) (usage : Option osso_mem_usage_t)
    (r : Ret) (h : osso_mem_get_usage_now w env s usage = some r) :
    r.state = s ∨ (NSIZE w = s.sys_avail_memory ∧ r.state = setup_sys_values w env s) := by
  cases usage with
  | none =>
    unfold osso_mem_get_usage_now at h
    simp only [Option.some.injEq] at h
    exact Or.inl (by rw [← h])
  | some p =>
    rcases usage_now_cases w env s p with h1 | h1 | ⟨u, h1⟩
    · rw [h1] at h
      exact Or.inl (by rw [← Option.some.inj h])
    · rw [h1] at h
      cases h
    · rw [h1] at h
      by_cases hc : NSIZE w = s.sys_avail_memory
      · rw [if_pos hc] at h
        exact Or.inr ⟨hc, by rw [← Option.some.inj h]⟩
      · rw [if_neg hc] at h
        exact Or.inl (by rw [← Option.some.inj h])

/-- A call with a non-null pointer leaves an object behind the pointer. -/
theorem usage_now_usage (w : Nat) (env : Env) (s : State) (p : osso_mem_usage_t)
    (r : Ret) (h : osso_mem_get_usage_now w env s (some p) = some r) :
    ∃ u, r.usage = some u := by
  rcases usage_now_cases w env s p with h1 | h1 | ⟨u, h1⟩
  · rw [h1] at h
    exact ⟨_, by rw [← Option.some.inj h]⟩
  · rw [h1] at h
    cases h
  · rw [h1] at h
    exact ⟨u, by rw [← Option.some.inj h]⟩

/-- A call in the cached second returns the cached snapshot and changes nothing. -/
theorem get_usage_same_stamp (w : Nat) (env : Env) (s : State) (p : osso_mem_usage_t)
    (ht : env.time = s.cache_stamp) :
    osso_mem_get_usage w env s (some p) = some ⟨0, some s.cache_usage, s⟩ := by
  unfold osso_mem_get_usage
  simp only
  rw [if_pos ht]

/-- A call in another second with the cached free-pages value returns the
cached snapshot and stores the new second. -/
theorem get_usage_same_pfree (w : Nat) (env : Env) (s : State) (p : osso_mem_usage_t)
    (ht : env.time ≠ s.cache_stamp) (hp : get_free_pages w env = s.cache_pfree) :
    osso_mem_get_usage w env s (some p)
      = some ⟨0, some s.cache_usage, { s with cache_stamp := env.time }⟩ := by
  unfold osso_mem_get_usage
  simp only
  rw [if_neg ht, if_pos hp]

/-- A call in another second with another free-pages value returns what
`osso_mem_get_usage_now` returns, and stores it in the cache when that is 0. -/
theorem get_usage_recompute (w : Nat) (env : Env) (s : State) (p : osso_mem_usage_t)
    (ht : env.time ≠ s.cache_stamp) (hp : get_free_pages w env ≠ s.cache_pfree) :
    (osso_mem_get_usage_now w env s (some p) = none →
      osso_mem_get_usage w env s (some p) = none) ∧
    (∀ u s1, osso_mem_get_usage_now w env s (some p) = some ⟨0, some u, s1⟩ →
      osso_mem_get_usage w env s (some p)
        = some ⟨0, some u, { s1 with cache_stamp := env.time,
                                     cache_pfree := get_free_pages w env,
                                     cache_usage := u }⟩) ∧
    (∀ r, osso_mem_get_usage_now w env s (some p) = some r → r.code ≠ 0 →
      osso_mem_get_usage w env s (some p) = some r) := by
  refine ⟨?_, ?_, ?_⟩
  · intro h
    unfold osso_mem_get_usage
    simp only
    rw [if_neg ht, if_neg hp, h]
  · intro u s1 h
    unfold osso_mem_get_usage
    simp only
    rw [if_neg ht, if_neg hp, h]
    simp
  · intro r h hc
    obtain ⟨u, hu⟩ := usage_now_usage w env s p r h
    obtain ⟨c, u', s1⟩ := r
    simp only at hu hc
    subst hu
    unfold osso_mem_get_usage
    simp only
    rw [if_neg ht, if_neg hp, h]
    simp only
    rw [if_neg hc]

/-- After a successful `osso_mem_get_usage` the cache holds the current second
and the snapshot returned. -/
theorem get_usage_cached (w : Nat) (env : Env) (s s1 : State) (p u : osso_mem_usage_t)
    (h : osso_mem_get_usage w env s (some p) = some ⟨0, some u, s1⟩) :
    s1.cache_stamp = env.time ∧ s1.cache_usage = u := by
  by_cases ht : env.time = s.cache_stamp
  · rw [get_usage_same_stamp w env s p ht] at h
    have hr := Option.some.inj h
    have hu := Option.some.inj (congrArg Ret.usage hr)
    have hs := congrArg Ret.state hr
    simp only at hu hs
    subst hs
    exact ⟨ht.symm, hu⟩
  · by_cases hp : get_free_pages w env = s.cache_pfree
    · rw [get_usage_same_pfree w env s p ht hp] at h
      have hr := Option.some.inj h
      have hu := Option.some.inj (congrArg Ret.usage hr)
      have hs := congrArg Ret.state hr
      simp only at hu hs
      subst hs
      exact ⟨rfl, hu⟩
    · obtain ⟨h1, h2, h3⟩ := get_usage_recompute w env s p ht hp
      cases hnow : osso_mem_get_usage_now w env s (some p) with
      | none => rw [h1 hnow] at h; cases h
      | some r =>
        by_cases hc : r.code = 0
        · obtain ⟨u', hu'⟩ := usage_now_usage w env s p r hnow
          obtain ⟨c, ou, st⟩ := r
          simp only at hc hu'
          subst hc
          subst hu'
          rw [h2 u' st hnow] at h
          have hr := Option.some.inj h
          have hu := Option.some.inj (congrArg Ret.usage hr)
          have hs := congrArg Ret.state hr
          simp only at hu hs
          subst hs
          exact ⟨rfl, hu⟩
        · rw [h3 r hnow hc] at h
          exact absurd (congrArg Ret.code (Option.some.inj h)) hc

/-- C5: two consecutive `osso_mem_get_usage` calls made in the same second, the
first of which succeeds, return the same snapshot, from every prior state and
whatever the files hold at the second call; the second call changes no state. -/
theorem get_usage_twice_same_second (w : Nat) (env1 env2 : Env) (s s1 : State)
    (p1 p2 u1 : osso_mem_usage_t)
    (hfirst : osso_mem_get_usage w env1 s (some p1) = some ⟨0, some u1, s1⟩)
    (htime : env2.time = env1.time) :
    osso_mem_get_usage w env2 s1 (some p2) = some ⟨0, some u1, s1⟩ := by
  obtain ⟨hstamp, husage⟩ := get_usage_cached w env1 s s1 p1 u1 hfirst
  rw [get_usage_same_stamp w env2 s1 p2 (by rw [htime, hstamp]), husage]


/-- Witness for C5: a first call in second 100 and a
second call in the same second, after memory and free pages have changed. -/
theorem get_usage_twice_same_second_witness :
    osso_mem_get_usage 32 env_first (State.initial 32) (some usage_zero)
      = some ⟨0, some usage_example, state_cached⟩ ∧
    env_later.time = env_first.time ∧
    osso_mem_get_usage 32 env_later state_cached (some usage_zero)
      = some ⟨0, some usage_example, state_cached⟩ :=
  ⟨by decide, by decide,
    get_usage_twice_same_second 32 env_first env_later (State.initial 32) state_cached
      usage_zero usage_zero usage_example (by decide) (by decide)⟩

/-- C6 as stated fails: after a call in second 100 at 5000 free pages, a call in
the same second at 4000 free pages returns the cached snapshot, not the result
that `osso_mem_get_usage_now` computes from the current meminfo. -/
theorem get_usage_same_second_ignores_free_pages :
    osso_mem_get_usage 32 env_first (State.initial 32) (some usage_zero)
      = some ⟨0, some usage_example, state_cached⟩ ∧
    env_later.time = env_first.time ∧
    get_free_pages 32 env_first = 5000 ∧
    get_free_pages 32 env_later = 4000 ∧
    osso_mem_get_usage 32 env_later state_cached (some usage_zero)
      = some ⟨0, some usage_example, state_cached⟩ ∧
    osso_mem_get_usage_now 32 env_later state_cached (some usage_zero)
      = some ⟨0, some usage_later, state_cached⟩ ∧
    usage_later ≠ usage_example := by
  decide

/-- C6 (amended): the cache of `osso_mem_get_usage` is hit when either signal is
unchanged.  A call in the cached second returns the cached snapshot without
reading the free-pages value; a call in another second returns it when the
free-pages value read equals the cached one, and stores the new second; only when
both differ does the call perform the full recompute, returning what
`osso_mem_get_usage_now` returns on the current files and caching it on success. -/
theorem get_usage_cache_policy (w : Nat) (env : Env) (s : State) (p : osso_mem_usage_t) :
    (env.time = s.cache_stamp →
      osso_mem_get_usage w env s (some p) = some ⟨0, some s.cache_usage, s⟩) ∧
    (env.time ≠ s.cache_stamp → get_free_pages w env = s.cache_pfree →
      osso_mem_get_usage w env s (some p)
        = some ⟨0, some s.cache_usage, { s with cache_stamp := env.time }⟩) ∧
    (env.time ≠ s.cache_stamp → get_free_pages w env ≠ s.cache_pfree →
      (osso_mem_get_usage_now w env s (some p) = none →
        osso_mem_get_usage w env s (some p) = none) ∧
      (∀ u s1, osso_mem_get_usage_now w env s (some p) = some ⟨0, some u, s1⟩ →
        osso_mem_get_usage w env s (some p)
          = some ⟨0, some u, { s1 with cache_stamp := env.time,
                                       cache_pfree := get_free_pages w env,
                                       cache_usage := u }⟩) ∧
      (∀ r, osso_mem_get_usage_now w env s (some p) = some r → r.code ≠ 0 →
        osso_mem_get_usage w env s (some p) = some r)) :=
  ⟨get_usage_same_stamp w env s p, get_usage_same_pfree w env s p,
    get_usage_recompute w env s p⟩

/-- Witness for C6: a hit in the cached second although
the free pages changed, and a recompute in second 100 from the empty cache. -/
theorem get_usage_cache_policy_witness :
    (env_later.time = state_cached.cache_stamp ∧
      get_free_pages 32 env_later ≠ state_cached.cache_pfree ∧
      osso_mem_get_usage 32 env_later state_cached (some usage_zero)
        = some ⟨0, some state_cached.cache_usage, state_cached⟩) ∧
    (env_first.time ≠ (State.initial 32).cache_stamp ∧
      get_free_pages 32 env_first ≠ (State.initial 32).cache_pfree ∧
      osso_mem_get_usage_now 32 env_first (State.initial 32) (some usage_zero)
        = some ⟨0, some usage_example, state_calibrated⟩ ∧
      osso_mem_get_usage 32 env_first (State.initial 32) (some usage_zero)
        = some ⟨0, some usage_example,
            { state_calibrated with cache_stamp := env_first.time,
                                    cache_pfree := get_free_pages 32 env_first,
                                    cache_usage := usage_example }⟩) :=
  ⟨⟨by decide, by decide,
     (get_usage_cache_policy 32 env_later state_cached usage_zero).1 (by decide)⟩,
   ⟨by decide, by decide, by decide,
     ((get_usage_cache_policy 32 env_first (State.initial 32) usage_zero).2.2
       (by decide) (by decide)).2.1 usage_example state_calibrated (by decide)⟩⟩

/-- C7 as stated fails: a direct `osso_mem_get_usage_now` returns `usage_later` and
leaves the cache as it was, so the next cache hit of `osso_mem_get_usage` (second
101, free pages unchanged) still serves the older `usage_example`. -/
theorem usage_now_does_not_refresh :
    osso_mem_get_usage_now 32 env_later state_cached (some usage_zero)
      = some ⟨0, some usage_later, state_cached⟩ ∧
    state_cached.cache_usage = usage_example ∧
    osso_mem_get_usage 32 env_next state_cached (some usage_zero)
      = some ⟨0, some usage_example, { state_cached with cache_stamp := 101 }⟩ ∧
    usage_example ≠ usage_later := by
  decide

/-- C7 (amended): `osso_mem_get_usage_now` never writes the cache.  After any call
that returns, the cached second, free-pages value and snapshot are those from
before the call, so the snapshot that `osso_mem_get_usage` serves on its next
cache hit is the one cached before, whatever `osso_mem_get_usage_now` returned. -/
theorem usage_now_keeps_cache (w : Nat) (env : Env) (s : State)
    (usage : Option osso_mem_usage_t) (r : Ret)
    (h : osso_mem_get_usage_now w env s usage = some r) :
    r.state.cache_stamp = s.cache_stamp ∧
    r.state.cache_pfree = s.cache_pfree ∧
    r.state.cache_usage = s.cache_usage ∧
    (∀ (env' : Env) (p' : osso_mem_usage_t), env'.time = s.cache_stamp →
      osso_mem_get_usage w env' r.state (some p') = some ⟨0, some s.cache_usage, r.state⟩) ∧
    (∀ (env' : Env) (p' : osso_mem_usage_t), env'.time ≠ s.cache_stamp →
      get_free_pages w env' = s.cache_pfree →
      osso_mem_get_usage w env' r.state (some p')
        = some ⟨0, some s.cache_usage, { r.state with cache_stamp := env'.time }⟩) := by
  have hc : r.state.cache_stamp = s.cache_stamp ∧ r.state.cache_pfree = s.cache_pfree ∧
      r.state.cache_usage = s.cache_usage := by
    rcases usage_now_state w env s usage r h with h1 | ⟨-, h1⟩
    · rw [h1]
      exact ⟨rfl, rfl, rfl⟩
    · rw [h1]
      exact setup_cache w env s
  obtain ⟨h1, h2, h3⟩ := hc
  refine ⟨h1, h2, h3, ?_, ?_⟩
  · intro env' p' ht
    rw [get_usage_same_stamp w env' r.state p' (by rw [ht, h1]), h3]
  · intro env' p' ht hp
    rw [get_usage_same_pfree w env' r.state p' (by rw [h1]; exact ht) (by rw [hp, h2])]
    simp only [h3]

/-- Witness for C7: the direct call on `env_later`, then a call in second 101. -/
theorem usage_now_keeps_cache_witness :
    osso_mem_get_usage_now 32 env_later state_cached (some usage_zero)
      = some ⟨0, some usage_later, state_cached⟩ ∧
    env_next.time ≠ state_cached.cache_stamp ∧
    get_free_pages 32 env_next = state_cached.cache_pfree ∧
    osso_mem_get_usage 32 env_next state_cached (some usage_zero)
      = some ⟨0, some state_cached.cache_usage,
          { state_cached with cache_stamp := env_next.time }⟩ :=
  ⟨by decide, by decide, by decide,
    (usage_now_keeps_cache 32 env_later state_cached (some usage_zero)
      ⟨0, some usage_later, state_cached⟩ (by decide)).2.2.2.2 env_next usage_zero
      (by decide) (by decide)⟩

/-- C8: a call of `osso_mem_get_usage` in a second other than the cached one,
when the free-pages value read equals the cached one, returns 0 with the cached
snapshot and changes the cached second only: the cached snapshot, the cached
free-pages value and every other static variable stay as they were.  Meminfo
is not parsed: the outcome is the same whatever the other files hold. -/
theorem get_usage_free_pages_unchanged (w : Nat) (env : Env) (s : State)
    (p : osso_mem_usage_t)
    (ht : env.time ≠ s.cache_stamp) (hp : get_free_pages w env = s.cache_pfree) :
    osso_mem_get_usage w env s (some p)
      = some ⟨0, some s.cache_usage, { s with cache_stamp := env.time }⟩ ∧
    ({ s with cache_stamp := env.time } : State).cache_usage = s.cache_usage ∧
    ({ s with cache_stamp := env.time } : State).cache_pfree = s.cache_pfree ∧
    (∀ env' : Env, env'.time = env.time →
      env'.fs File.lowmem_free_pages = env.fs File.lowmem_free_pages →
      osso_mem_get_usage w env' s (some p) = osso_mem_get_usage w env s (some p)) := by
  refine ⟨get_usage_same_pfree w env s p ht hp, rfl, rfl, ?_⟩
  intro env' ht' hf'
  have hp' : get_free_pages w env' = s.cache_pfree := by
    rw [← hp]
    unfold get_free_pages get_file_value
    rw [hf']
  rw [get_usage_same_pfree w env s p ht hp,
    get_usage_same_pfree w env' s p (by rw [ht']; exact ht) hp', ht']

/-- Witness for C8: second 101 after a recompute in
second 100, with 5000 free pages both times. -/
theorem get_usage_free_pages_unchanged_witness :
    env_next.time ≠ state_cached.cache_stamp ∧
    get_free_pages 32 env_next = state_cached.cache_pfree ∧
    osso_mem_get_usage 32 env_next state_cached (some usage_zero)
      = some ⟨0, some usage_example, { state_cached with cache_stamp := 101 }⟩ :=
  ⟨by decide, by decide,
    (get_usage_free_pages_unchanged 32 env_next state_cached usage_zero
      (by decide) (by decide)).1⟩

/-! ## Calibration -/

/-- A `size_t` shifted left by 10 is never `NSIZE`: its low bits are zero. -/
theorem shift_ne_NSIZE (w : Nat) (hw : 32 ≤ w) (x : Nat) : (x <<< 10) % 2 ^ w ≠ NSIZE w := by
  have hsplit : 2 ^ w = 2 ^ (w - 10) * 1024 := by
    rw [show (1024 : Nat) = 2 ^ 10 by norm_num, ← pow_add]
    congr 1
    omega
  have hk : 0 < 2 ^ (w - 10) := Nat.pos_pow_of_pos _ (by decide)
  rw [shiftLeft_ten, NSIZE, hsplit, Nat.mul_mod_mul_right]
  omega

/-- The value of `get_file_value` for a file that cannot be opened. -/
theorem get_file_value_none (w : Nat) (env : Env) (f : File) (h : env.fs f = none) :
    get_file_value w env f = NSIZE w := by
  unfold get_file_value
  rw [h]

/-- The result of `load_meminfo` when `/proc/meminfo` cannot be opened. -/
theorem load_meminfo_none (w : Nat) (env : Env) (line : List Char) (vals : List Nat)
    (size : Nat) (h : env.fs File.meminfo = none) :
    load_meminfo w env line vals size = (vals, 0) := by
  unfold load_meminfo
  rw [h]

/-- The four limits that `setup_sys_values` stores, each a value shifted left
by 10 in `size_t`. -/
theorem setup_fields (w : Nat) (env : Env) (s : State) :
    (∃ x, (setup_sys_values w env s).sys_avail_ram = (x <<< 10) % 2 ^ w) ∧
    (∃ x, (setup_sys_values w env s).sys_avail_memory = (x <<< 10) % 2 ^ w) ∧
    (∃ x, (setup_sys_values w env s).sys_deny_limit = (x <<< 10) % 2 ^ w) ∧
    (∃ x, (setup_sys_values w env s).sys_lowmem_limit = (x <<< 10) % 2 ^ w) :=
  ⟨⟨_, rfl⟩, ⟨_, rfl⟩, ⟨_, rfl⟩, ⟨_, rfl⟩⟩

/-- C9: after `setup_sys_values`, run from any state on any files, none of
`sys_avail_ram`, `sys_avail_memory`, `sys_deny_limit`, `sys_lowmem_limit` is
`NSIZE`; so in every later state `t` that still holds these four values,
`osso_mem_get_avail_ram`, `osso_mem_get_deny_limit`, `osso_mem_get_lowmem_limit`
and `osso_mem_get_usage_now`, on whatever files, return the stored values and
leave the whole state unchanged: nothing recalibrates.  When no file can be
opened the first calibration stores 67108864, 67108864, 65011712 and 65011712. -/
theorem setup_never_NSIZE (w : Nat) (hw : 32 ≤ w) (env : Env) (s : State) :
    (setup_sys_values w env s).sys_avail_ram ≠ NSIZE w ∧
    (setup_sys_values w env s).sys_avail_memory ≠ NSIZE w ∧
    (setup_sys_values w env s).sys_deny_limit ≠ NSIZE w ∧
    (setup_sys_values w env s).sys_lowmem_limit ≠ NSIZE w ∧
    (∀ (t : State) (env' : Env),
      t.sys_avail_ram = (setup_sys_values w env s).sys_avail_ram →
      t.sys_avail_memory = (setup_sys_values w env s).sys_avail_memory →
      t.sys_deny_limit = (setup_sys_values w env s).sys_deny_limit →
      t.sys_lowmem_limit = (setup_sys_values w env s).sys_lowmem_limit →
      osso_mem_get_avail_ram w env' t = ((setup_sys_values w env s).sys_avail_ram, t) ∧
      osso_mem_get_deny_limit w env' t = ((setup_sys_values w env s).sys_deny_limit, t) ∧
      osso_mem_get_lowmem_limit w env' t = ((setup_sys_values w env s).sys_lowmem_limit, t) ∧
      (∀ (usage : Option osso_mem_usage_t) (r : Ret),
        osso_mem_get_usage_now w env' t usage = some r → r.state = t)) ∧
    ((∀ f, env.fs f = none) → s.sys_deny_limit = NSIZE w → s.sys_lowmem_limit = NSIZE w →
      (setup_sys_values w env s).sys_avail_ram = 67108864 ∧
      (setup_sys_values w env s).sys_avail_memory = 67108864 ∧
      (setup_sys_values w env s).sys_deny_limit = 65011712 ∧
      (setup_sys_values w env s).sys_lowmem_limit = 65011712) := by
  obtain ⟨⟨x1, h1⟩, ⟨x2, h2⟩, ⟨x3, h3⟩, ⟨x4, h4⟩⟩ := setup_fields w env s
  have n1 : (setup_sys_values w env s).sys_avail_ram ≠ NSIZE w := by
    rw [h1]; exact shift_ne_NSIZE w hw x1
  have n2 : (setup_sys_values w env s).sys_avail_memory ≠ NSIZE w := by
    rw [h2]; exact shift_ne_NSIZE w hw x2
  have n3 : (setup_sys_values w env s).sys_deny_limit ≠ NSIZE w := by
    rw [h3]; exact shift_ne_NSIZE w hw x3
  have n4 : (setup_sys_values w env s).sys_lowmem_limit ≠ NSIZE w := by
    rw [h4]; exact shift_ne_NSIZE w hw x4
  refine ⟨n1, n2, n3, n4, ?_, ?_⟩
  · intro t env' t1 t2 t3 t4
    rw [← t1] at n1
    rw [← t2] at n2
    rw [← t3] at n3
    rw [← t4] at n4
    refine ⟨?_, ?_, ?_, ?_⟩
    · unfold osso_mem_get_avail_ram
      simp only
      rw [if_neg (Ne.symm n1), t1]
    · unfold osso_mem_get_deny_limit
      simp only
      rw [if_neg (Ne.symm n3), t3]
    · unfold osso_mem_get_lowmem_limit
      simp only
      rw [if_neg (Ne.symm n4), t4]
    · intro usage r h
      rcases usage_now_state w env' t usage r h with h5 | ⟨h5, -⟩
      · exact h5
      · exact absurd h5.symm n2
  · intro hfs hd hl
    have hbig : (67108864 : Nat) < 2 ^ w :=
      lt_of_lt_of_le (by norm_num) (Nat.pow_le_pow_right (by decide) hw)
    have e1 : (64 <<< 10 : Nat) % 2 ^ w = 65536 := by
      rw [shiftLeft_ten]
      exact Nat.mod_eq_of_lt (by omega)
    have e2 : (65536 <<< 10 : Nat) % 2 ^ w = 67108864 := by
      rw [shiftLeft_ten]
      exact Nat.mod_eq_of_lt (by omega)
    have e3 : ((65536 - 65536 >>> 5) <<< 10 : Nat) % 2 ^ w = 65011712 := by
      rw [shiftLeft_ten, Nat.shiftRight_eq_div_pow]
      exact Nat.mod_eq_of_lt (by omega)
    unfold setup_sys_values
    simp only [get_file_value_none w env _ (hfs _), load_meminfo_none w env _ _ _ (hfs _),
      hd, hl, if_true, ne_eq, not_true_eq_false, false_and, if_false, e1, e2, e3, and_self]

/-- Witness for C9: the first calibration of a 32-bit process when no file can
be opened, and a later `osso_mem_get_avail_ram` when files exist. -/
theorem setup_never_NSIZE_witness :
    (32 ≤ 32) ∧
    setup_sys_values 32 (env_of 0 []) (State.initial 32)
      = { State.initial 32 with sys_avail_ram := 67108864, sys_avail_memory := 67108864,
                                sys_deny_limit := 65011712, sys_lowmem_limit := 65011712 } ∧
    (setup_sys_values 32 (env_of 0 []) (State.initial 32)).sys_avail_ram ≠ NSIZE 32 ∧
    (setup_sys_values 32 (env_of 0 []) (State.initial 32)).sys_lowmem_limit = 65011712 ∧
    osso_mem_get_avail_ram 32 env_first (setup_sys_values 32 (env_of 0 []) (State.initial 32))
      = ((setup_sys_values 32 (env_of 0 []) (State.initial 32)).sys_avail_ram,
          setup_sys_values 32 (env_of 0 []) (State.initial 32)) :=
  have h := setup_never_NSIZE 32 (by decide) (env_of 0 []) (State.initial 32)
  ⟨by decide, by decide, h.1,
    (h.2.2.2.2.2 (fun _ => rfl) (by decide) (by decide)).2.2.2,
    (h.2.2.2.2.1 _ env_first rfl rfl rfl rfl).1⟩

/-- C10 as stated fails in two ways.  An allowed-pages file that is available
but holds `0` is treated as unknown: `avail_memory` equals `avail_ram` (67108864),
not `0 * (4096 / 1024)` kilobytes.  And with 32-bit `size_t` an allowed-pages
value of 1048576 gives `avail_memory = 0`, not `1048576 * (4096 / 1024) * 1024`. -/
theorem setup_avail_memory_unknown_or_wraps :
    ((env_of 0 [(File.lowmem_allowed_pages, "0\n")]).fs File.lowmem_allowed_pages
        = some "0\n".toList ∧
      strtol 32 "0\n".toList = 0 ∧
      (setup_sys_values 32 (env_of 0 [(File.lowmem_allowed_pages, "0\n")])
        (State.initial 32)).sys_avail_ram = 67108864 ∧
      (setup_sys_values 32 (env_of 0 [(File.lowmem_allowed_pages, "0\n")])
        (State.initial 32)).sys_avail_memory = 67108864 ∧
      (67108864 : Nat) ≠ (0 * (4096 / 1024)) * 1024) ∧
    (get_file_value 32 (env_of 0 [(File.lowmem_allowed_pages, "1048576\n")])
        File.lowmem_allowed_pages = 1048576 ∧
      (env_of 0 [(File.lowmem_allowed_pages, "1048576\n")]).pagesize = 4096 ∧
      (setup_sys_values 32 (env_of 0 [(File.lowmem_allowed_pages, "1048576\n")])
        (State.initial 32)).sys_avail_memory = 0 ∧
      (0 : Nat) ≠ (1048576 * (4096 / 1024)) * 1024) := by
  decide

/-- C10 (amended): after `setup_sys_values`, `avail_memory` equals `avail_ram`
whenever the allowed-pages value is unknown, that is `get_file_value` returns
`NSIZE`, as it does when the file is unavailable; otherwise it is
`allowed_pages * (pagesize >> 10)` kilobytes shifted left by 10 in `size_t`
arithmetic, hence exactly `allowed_pages * (pagesize / 1024) * 1024` bytes
whenever that fits in a `size_t`. -/
theorem setup_avail_memory (w : Nat) (env : Env) (s : State) :
    (env.fs File.lowmem_allowed_pages = none →
      (setup_sys_values w env s).sys_avail_memory = (setup_sys_values w env s).sys_avail_ram) ∧
    (get_file_value w env File.lowmem_allowed_pages = NSIZE w →
      (setup_sys_values w env s).sys_avail_memory = (setup_sys_values w env s).sys_avail_ram) ∧
    (get_file_value w env File.lowmem_allowed_pages ≠ NSIZE w →
      (setup_sys_values w env s).sys_avail_memory
        = (get_file_value w env File.lowmem_allowed_pages * ((env.pagesize % 2 ^ w) / 1024)
            * 1024) % 2 ^ w) ∧
    (get_file_value w env File.lowmem_allowed_pages ≠ NSIZE w → env.pagesize < 2 ^ w →
      get_file_value w env File.lowmem_allowed_pages * (env.pagesize / 1024) * 1024 < 2 ^ w →
      (setup_sys_values w env s).sys_avail_memory
        = get_file_value w env File.lowmem_allowed_pages * (env.pagesize / 1024) * 1024) := by
  have hunknown : get_file_value w env File.lowmem_allowed_pages = NSIZE w →
      (setup_sys_values w env s).sys_avail_memory
        = (setup_sys_values w env s).sys_avail_ram := by
    intro h
    unfold setup_sys_values
    simp only [h, if_true]
  have hknown : get_file_value w env File.lowmem_allowed_pages ≠ NSIZE w →
      (setup_sys_values w env s).sys_avail_memory
        = (get_file_value w env File.lowmem_allowed_pages * ((env.pagesize % 2 ^ w) / 1024)
            * 1024) % 2 ^ w := by
    intro h
    unfold setup_sys_values
    simp only [if_neg (Ne.symm h), shiftLeft_ten, Nat.shiftRight_eq_div_pow]
    rw [Nat.mul_mod, Nat.mod_mod, ← Nat.mul_mod]
  refine ⟨fun h => hunknown (get_file_value_none w env _ h), hunknown, hknown, ?_⟩
  intro h hps hfit
  rw [hknown h, Nat.mod_eq_of_lt hps, Nat.mod_eq_of_lt hfit]

/-- Witness for C10: no allowed-pages file, and an allowed-pages
file holding 20000 (pages of 4096 bytes), on 32 bits. -/
theorem setup_avail_memory_witness :
    ((env_of 0 [(File.meminfo, meminfo_example)]).fs File.lowmem_allowed_pages = none ∧
      (setup_sys_values 32 (env_of 0 [(File.meminfo, meminfo_example)])
        (State.initial 32)).sys_avail_memory
        = (setup_sys_values 32 (env_of 0 [(File.meminfo, meminfo_example)])
            (State.initial 32)).sys_avail_ram) ∧
    (get_file_value 32 (env_of 0 [(File.lowmem_allowed_pages, "20000\n")])
        File.lowmem_allowed_pages = 20000 ∧
      (setup_sys_values 32 (env_of 0 [(File.lowmem_allowed_pages, "20000\n")])
        (State.initial 32)).sys_avail_memory = 20000 * (4096 / 1024) * 1024) :=
  ⟨⟨rfl, (setup_avail_memory 32 (env_of 0 [(File.meminfo, meminfo_example)])
      (State.initial 32)).1 rfl⟩,
   ⟨by decide, (setup_avail_memory 32 (env_of 0 [(File.lowmem_allowed_pages, "20000\n")])
      (State.initial 32)).2.2.2 (by decide) (by decide) (by decide)⟩⟩

/-! ## Calibration in kilobytes -/

/-- The state after `setup_sys_values`, by its kilobyte values: each limit is the
kilobyte value shifted left by 10 in `size_t`. -/
theorem setup_sys_values_kB (w : Nat) (env : Env) (s : State) :
    setup_sys_values w env s =
      { s with
        sys_avail_ram := (setup_avail_ram_kB w env <<< 10) % 2 ^ w
        sys_avail_memory := (setup_avail_memory_kB w env <<< 10) % 2 ^ w
        sys_deny_limit := (setup_deny_limit_kB w env s <<< 10) % 2 ^ w
        sys_lowmem_limit := (setup_lowmem_limit_kB w env s <<< 10) % 2 ^ w } :=
  rfl

/-- The two percentages of `setup_sys_values` on a first calibration: each is
the value of its file when the allowed-pages value is known, and `NSIZE` when
it is not or when the file yields `NSIZE`. -/
theorem setup_percent_unknown (w : Nat) (env : Env) (s : State) :
    (s.sys_deny_limit = NSIZE w →
      get_file_value w env File.lowmem_deny_watermark = NSIZE w →
      setup_deny_percent w env s = NSIZE w) ∧
    (s.sys_lowmem_limit = NSIZE w →
      get_file_value w env File.lowmem_notify_high = NSIZE w →
      setup_lowmem_percent w env s = NSIZE w) ∧
    (get_file_value w env File.lowmem_allowed_pages ≠ NSIZE w →
      setup_deny_percent w env s = get_file_value w env File.lowmem_deny_watermark ∧
      setup_lowmem_percent w env s = get_file_value w env File.lowmem_notify_high ∧
      setup_avail_memory_kB w env
        = (get_file_value w env File.lowmem_allowed_pages * ((env.pagesize % 2 ^ w) >>> 10))
            % 2 ^ w) := by
  refine ⟨?_, ?_, ?_⟩
  · intro h1 h2
    unfold setup_deny_percent
    split_ifs <;> assumption
  · intro h1 h2
    unfold setup_lowmem_percent
    split_ifs <;> assumption
  · intro h
    unfold setup_deny_percent setup_lowmem_percent setup_avail_memory_kB
    rw [if_neg (Ne.symm h), if_neg (Ne.symm h), if_neg (Ne.symm h)]
    exact ⟨rfl, rfl, rfl⟩

/-- C11 as stated fails: a first calibration on the example meminfo, with no
limit file, stores `avail_memory = 256000000` and `deny_limit = 248000512`
bytes, while `avail_memory - floor(avail_memory / 32)` is 248000000; so it is on
32 and on 64 bits. -/
theorem setup_deny_default_bytes_differ :
    get_file_value 32 (env_of 0 [(File.meminfo, meminfo_example)])
        File.lowmem_deny_watermark = NSIZE 32 ∧
    (setup_sys_values 32 (env_of 0 [(File.meminfo, meminfo_example)])
        (State.initial 32)).sys_avail_memory = 256000000 ∧
    (setup_sys_values 32 (env_of 0 [(File.meminfo, meminfo_example)])
        (State.initial 32)).sys_deny_limit = 248000512 ∧
    (setup_sys_values 64 (env_of 0 [(File.meminfo, meminfo_example)])
        (State.initial 64)).sys_avail_memory = 256000000 ∧
    (setup_sys_values 64 (env_of 0 [(File.meminfo, meminfo_example)])
        (State.initial 64)).sys_deny_limit = 248000512 ∧
    (248000512 : Nat) ≠ 256000000 - 256000000 / 32 := by
  decide

/-- C11 (amended): after a first calibration with the deny-watermark percentage
unavailable, the default holds between the kilobyte values: with `a` the
available memory in kilobytes, the stored `avail_memory` is `a << 10` and the
stored `deny_limit` is `(a - floor(a / 32)) << 10`, in `size_t`.  When nothing
wraps, `deny_limit = avail_memory - floor(avail_memory / 32) + 32 * (a mod 32)`
in bytes, so the byte counts satisfy `deny_limit = avail_memory -
floor(avail_memory / 32)` exactly when `a` is a multiple of 32. -/
theorem setup_deny_default (w : Nat) (env : Env) (s : State)
    (hfirst : s.sys_deny_limit = NSIZE w)
    (hfile : get_file_value w env File.lowmem_deny_watermark = NSIZE w) :
    (setup_sys_values w env s).sys_avail_memory
      = (setup_avail_memory_kB w env * 1024) % 2 ^ w ∧
    setup_deny_limit_kB w env s
      = setup_avail_memory_kB w env - setup_avail_memory_kB w env / 32 ∧
    (setup_sys_values w env s).sys_deny_limit
      = ((setup_avail_memory_kB w env - setup_avail_memory_kB w env / 32) * 1024) % 2 ^ w ∧
    (setup_avail_memory_kB w env * 1024 < 2 ^ w →
      (setup_sys_values w env s).sys_deny_limit
        = (setup_sys_values w env s).sys_avail_memory
          - (setup_sys_values w env s).sys_avail_memory / 32
          + 32 * (setup_avail_memory_kB w env % 32)) ∧
    (setup_avail_memory_kB w env * 1024 < 2 ^ w →
      ((setup_sys_values w env s).sys_deny_limit
        = (setup_sys_values w env s).sys_avail_memory
          - (setup_sys_values w env s).sys_avail_memory / 32
        ↔ setup_avail_memory_kB w env % 32 = 0)) := by
  have hp : setup_deny_percent w env s = NSIZE w :=
    (setup_percent_unknown w env s).1 hfirst hfile
  have hkB : setup_deny_limit_kB w env s
      = setup_avail_memory_kB w env - setup_avail_memory_kB w env / 32 := by
    unfold setup_deny_limit_kB
    rw [if_pos hp.symm, Nat.shiftRight_eq_div_pow]
  have hA : (setup_sys_values w env s).sys_avail_memory
      = (setup_avail_memory_kB w env * 1024) % 2 ^ w := by
    rw [setup_sys_values_kB]
    show (setup_avail_memory_kB w env <<< 10) % 2 ^ w = _
    rw [shiftLeft_ten]
  have hD : (setup_sys_values w env s).sys_deny_limit
      = ((setup_avail_memory_kB w env - setup_avail_memory_kB w env / 32) * 1024) % 2 ^ w := by
    rw [setup_sys_values_kB]
    show (setup_deny_limit_kB w env s <<< 10) % 2 ^ w = _
    rw [hkB, shiftLeft_ten]
  have hexact : setup_avail_memory_kB w env * 1024 < 2 ^ w →
      (setup_sys_values w env s).sys_deny_limit
        = (setup_sys_values w env s).sys_avail_memory
          - (setup_sys_values w env s).sys_avail_memory / 32
          + 32 * (setup_avail_memory_kB w env % 32) := by
    intro hfit
    rw [hD, hA, Nat.mod_eq_of_lt hfit, Nat.mod_eq_of_lt (by omega)]
    omega
  refine ⟨hA, hkB, hD, hexact, ?_⟩
  intro hfit
  have h := hexact hfit
  constructor
  · intro h2
    rw [h2] at h
    omega
  · intro h2
    omega

/-- Witness for C11: the first calibration with no file at all, where the
available memory is 65536 kB, a multiple of 32, and nothing wraps. -/
theorem setup_deny_default_witness :
    (State.initial 32).sys_deny_limit = NSIZE 32 ∧
    get_file_value 32 (env_of 0 []) File.lowmem_deny_watermark = NSIZE 32 ∧
    setup_avail_memory_kB 32 (env_of 0 []) = 65536 ∧
    (setup_sys_values 32 (env_of 0 []) (State.initial 32)).sys_deny_limit
      = (setup_sys_values 32 (env_of 0 []) (State.initial 32)).sys_avail_memory
        - (setup_sys_values 32 (env_of 0 []) (State.initial 32)).sys_avail_memory / 32 :=
  ⟨by decide, by decide, by decide,
    ((setup_deny_default 32 (env_of 0 []) (State.initial 32) (by decide) (by decide)).2.2.2.2
      (by decide)).2 (by decide)⟩

/-- The macro `DIVIDE(a, 100)` when the sum `a + 50` does not wrap. -/
theorem DIVIDE_hundred (w a : Nat) (h : a + 50 < 2 ^ w) : DIVIDE w a 100 = (a + 50) / 100 := by
  unfold DIVIDE
  rw [show (100 : Nat) >>> 1 = 50 by decide, Nat.mod_eq_of_lt h]

/-- C12 as stated fails.  With 32-bit `size_t`, 1073741823 allowed pages of 4096
bytes and a deny watermark of 1 percent, the product `4294967292 * 1` does not
overflow, but the sum with 50 inside `DIVIDE` does: `deny_limit` is 0, not
`floor((4294967292 * 1 + 50) / 100) = 42949673` kilobytes.  With 1048576 allowed
pages and 100 percent the kilobyte value is the formula's, 4194304, but its
conversion to bytes wraps to 0. -/
theorem setup_deny_percent_wraps :
    (get_file_value 32
        (env_of 0 [(File.lowmem_allowed_pages, "1073741823\n"),
                   (File.lowmem_deny_watermark, "1\n")]) File.lowmem_allowed_pages
      = 1073741823 ∧
     get_file_value 32
        (env_of 0 [(File.lowmem_allowed_pages, "1073741823\n"),
                   (File.lowmem_deny_watermark, "1\n")]) File.lowmem_deny_watermark = 1 ∧
     setup_avail_memory_kB 32
        (env_of 0 [(File.lowmem_allowed_pages, "1073741823\n"),
                   (File.lowmem_deny_watermark, "1\n")]) = 4294967292 ∧
     4294967292 * 1 < 2 ^ 32 ∧
     setup_deny_limit_kB 32
        (env_of 0 [(File.lowmem_allowed_pages, "1073741823\n"),
                   (File.lowmem_deny_watermark, "1\n")]) (State.initial 32) = 0 ∧
     (setup_sys_values 32
        (env_of 0 [(File.lowmem_allowed_pages, "1073741823\n"),
                   (File.lowmem_deny_watermark, "1\n")]) (State.initial 32)).sys_deny_limit = 0 ∧
     (4294967292 * 1 + 50) / 100 = 42949673 ∧
     (42949673 <<< 10) % 2 ^ 32 = 1030792192) ∧
    (setup_avail_memory_kB 32
        (env_of 0 [(File.lowmem_allowed_pages, "1048576\n"),
                   (File.lowmem_deny_watermark, "100\n")]) = 4194304 ∧
     4194304 * 100 + 50 < 2 ^ 32 ∧
     setup_deny_limit_kB 32
        (env_of 0 [(File.lowmem_allowed_pages, "1048576\n"),
                   (File.lowmem_deny_watermark, "100\n")]) (State.initial 32) = 4194304 ∧
     (setup_sys_values 32
        (env_of 0 [(File.lowmem_allowed_pages, "1048576\n"),
                   (File.lowmem_deny_watermark, "100\n")]) (State.initial 32)).sys_deny_limit = 0 ∧
     (0 : Nat) ≠ 4194304 * 1024) := by
  decide

/-- C12 (amended): after a calibration with the allowed-pages value known and a
deny-watermark percentage `p` read from its file, with `a` the available memory
in kilobytes: the kilobyte deny limit is `DIVIDE(a * p, 100)` in `size_t`,
which is `floor((a * p + 50) / 100)`, `a * p / 100` rounded half-up, provided
`a * p + 50` does not overflow `size_t`; the stored `deny_limit` is that value
shifted left by 10 in `size_t`, so exactly 1024 times it whenever that fits. -/
theorem setup_deny_from_percent (w : Nat) (env : Env) (s : State)
    (hallowed : get_file_value w env File.lowmem_allowed_pages ≠ NSIZE w)
    (hp : get_file_value w env File.lowmem_deny_watermark ≠ NSIZE w) :
    setup_avail_memory_kB w env
      = (get_file_value w env File.lowmem_allowed_pages * ((env.pagesize % 2 ^ w) / 1024))
          % 2 ^ w ∧
    setup_deny_limit_kB w env s
      = DIVIDE w ((setup_avail_memory_kB w env
          * get_file_value w env File.lowmem_deny_watermark) % 2 ^ w) 100 ∧
    (setup_sys_values w env s).sys_deny_limit = (setup_deny_limit_kB w env s * 1024) % 2 ^ w ∧
    (setup_avail_memory_kB w env * get_file_value w env File.lowmem_deny_watermark + 50 < 2 ^ w →
      setup_deny_limit_kB w env s
        = (setup_avail_memory_kB w env * get_file_value w env File.lowmem_deny_watermark + 50)
            / 100 ∧
      (setup_sys_values w env s).sys_deny_limit
        = (((setup_avail_memory_kB w env * get_file_value w env File.lowmem_deny_watermark + 50)
            / 100) * 1024) % 2 ^ w ∧
      (((setup_avail_memory_kB w env * get_file_value w env File.lowmem_deny_watermark + 50)
          / 100) * 1024 < 2 ^ w →
        (setup_sys_values w env s).sys_deny_limit
          = ((setup_avail_memory_kB w env * get_file_value w env File.lowmem_deny_watermark + 50)
              / 100) * 1024)) := by
  obtain ⟨hpe, -, ha⟩ := (setup_percent_unknown w env s).2.2 hallowed
  rw [Nat.shiftRight_eq_div_pow] at ha
  have hkB : setup_deny_limit_kB w env s
      = DIVIDE w ((setup_avail_memory_kB w env
          * get_file_value w env File.lowmem_deny_watermark) % 2 ^ w) 100 := by
    unfold setup_deny_limit_kB
    rw [hpe, if_neg (Ne.symm hp)]
  have hD : (setup_sys_values w env s).sys_deny_limit
      = (setup_deny_limit_kB w env s * 1024) % 2 ^ w := by
    rw [setup_sys_values_kB]
    show (setup_deny_limit_kB w env s <<< 10) % 2 ^ w = _
    rw [shiftLeft_ten]
  refine ⟨ha, hkB, hD, ?_⟩
  intro hfit
  have hk : setup_deny_limit_kB w env s
      = (setup_avail_memory_kB w env * get_file_value w env File.lowmem_deny_watermark + 50)
          / 100 := by
    rw [hkB, Nat.mod_eq_of_lt (by omega), DIVIDE_hundred w _ hfit]
  refine ⟨hk, by rw [hD, hk], ?_⟩
  intro hfit2
  rw [hD, hk, Nat.mod_eq_of_lt hfit2]

/-- Witness for C12: 20000 allowed pages of 4096 bytes and a deny watermark of
95 percent, on 32 bits: 80000 kB available, a deny limit of 76000 kB. -/
theorem setup_deny_from_percent_witness :
    get_file_value 32
        (env_of 0 [(File.lowmem_allowed_pages, "20000\n"), (File.lowmem_deny_watermark, "95\n"),
                   (File.lowmem_notify_high, "80\n")]) File.lowmem_allowed_pages = 20000 ∧
    get_file_value 32
        (env_of 0 [(File.lowmem_allowed_pages, "20000\n"), (File.lowmem_deny_watermark, "95\n"),
                   (File.lowmem_notify_high, "80\n")]) File.lowmem_deny_watermark = 95 ∧
    setup_avail_memory_kB 32
        (env_of 0 [(File.lowmem_allowed_pages, "20000\n"), (File.lowmem_deny_watermark, "95\n"),
                   (File.lowmem_notify_high, "80\n")]) = 80000 ∧
    (setup_sys_values 32
        (env_of 0 [(File.lowmem_allowed_pages, "20000\n"), (File.lowmem_deny_watermark, "95\n"),
                   (File.lowmem_notify_high, "80\n")]) (State.initial 32)).sys_deny_limit
      = ((80000 * 95 + 50) / 100) * 1024 :=
  ⟨by decide, by decide, by decide,
    ((setup_deny_from_percent 32
        (env_of 0 [(File.lowmem_allowed_pages, "20000\n"), (File.lowmem_deny_watermark, "95\n"),
                   (File.lowmem_notify_high, "80\n")]) (State.initial 32)
        (by decide) (by decide)).2.2.2 (by decide)).2.2 (by decide)⟩

/-- C13 as stated fails: with 32-bit `size_t`, 20000000 allowed pages of 4096
bytes (80000000 kB) and a notify-high percentage of 80, the product wraps and the
kilobyte low-memory limit is 21050327, not `floor((80000000 * 80 + 50) / 100) =
64000000`; the stored limit is 80698368 bytes. -/
theorem setup_lowmem_percent_wraps :
    get_file_value 32
        (env_of 0 [(File.lowmem_allowed_pages, "20000000\n"),
                   (File.lowmem_deny_watermark, "90\n"), (File.lowmem_notify_high, "80\n")])
        File.lowmem_notify_high = 80 ∧
    setup_avail_memory_kB 32
        (env_of 0 [(File.lowmem_allowed_pages, "20000000\n"),
                   (File.lowmem_deny_watermark, "90\n"), (File.lowmem_notify_high, "80\n")])
      = 80000000 ∧
    setup_lowmem_limit_kB 32
        (env_of 0 [(File.lowmem_allowed_pages, "20000000\n"),
                   (File.lowmem_deny_watermark, "90\n"), (File.lowmem_notify_high, "80\n")])
        (State.initial 32) = 21050327 ∧
    (setup_sys_values 32
        (env_of 0 [(File.lowmem_allowed_pages, "20000000\n"),
                   (File.lowmem_deny_watermark, "90\n"), (File.lowmem_notify_high, "80\n")])
        (State.initial 32)).sys_lowmem_limit = 80698368 ∧
    (80000000 * 80 + 50) / 100 = 64000000 ∧
    (64000000 <<< 10) % 2 ^ 32 = 1111490560 := by
  decide

/-- C13 (amended): after a first calibration the stored `lowmem_limit` equals the
stored `deny_limit` when the notify-high percentage is unknown, which includes
every case in which the allowed-pages value is unknown; otherwise, with `a` the
available memory in kilobytes and `q` the percentage, the kilobyte limit is
`DIVIDE(a * q, 100)` in `size_t`, which is `floor((a * q + 50) / 100)`, `a * q /
100` rounded half-up, provided `a * q + 50` does not overflow `size_t`; the
stored limit is that value shifted left by 10 in `size_t`, exactly 1024 times it
whenever that fits. -/
theorem setup_lowmem_limit (w : Nat) (env : Env) (s : State)
    (hfirst : s.sys_lowmem_limit = NSIZE w) :
    (get_file_value w env File.lowmem_notify_high = NSIZE w →
      (setup_sys_values w env s).sys_lowmem_limit = (setup_sys_values w env s).sys_deny_limit) ∧
    (get_file_value w env File.lowmem_allowed_pages = NSIZE w →
      (setup_sys_values w env s).sys_lowmem_limit = (setup_sys_values w env s).sys_deny_limit) ∧
    (get_file_value w env File.lowmem_allowed_pages ≠ NSIZE w →
      get_file_value w env File.lowmem_notify_high ≠ NSIZE w →
      setup_lowmem_limit_kB w env s
        = DIVIDE w ((setup_avail_memory_kB w env
            * get_file_value w env File.lowmem_notify_high) % 2 ^ w) 100 ∧
      (setup_sys_values w env s).sys_lowmem_limit
        = (setup_lowmem_limit_kB w env s * 1024) % 2 ^ w ∧
      (setup_avail_memory_kB w env * get_file_value w env File.lowmem_notify_high + 50 < 2 ^ w →
        setup_lowmem_limit_kB w env s
          = (setup_avail_memory_kB w env * get_file_value w env File.lowmem_notify_high + 50)
              / 100 ∧
        (((setup_avail_memory_kB w env * get_file_value w env File.lowmem_notify_high + 50)
            / 100) * 1024 < 2 ^ w →
          (setup_sys_values w env s).sys_lowmem_limit
            = ((setup_avail_memory_kB w env * get_file_value w env File.lowmem_notify_high + 50)
                / 100) * 1024))) := by
  have hL : (setup_sys_values w env s).sys_lowmem_limit
      = (setup_lowmem_limit_kB w env s * 1024) % 2 ^ w := by
    rw [setup_sys_values_kB]
    show (setup_lowmem_limit_kB w env s <<< 10) % 2 ^ w = _
    rw [shiftLeft_ten]
  have hD : (setup_sys_values w env s).sys_deny_limit
      = (setup_deny_limit_kB w env s * 1024) % 2 ^ w := by
    rw [setup_sys_values_kB]
    show (setup_deny_limit_kB w env s <<< 10) % 2 ^ w = _
    rw [shiftLeft_ten]
  have hunknown : setup_lowmem_percent w env s = NSIZE w →
      (setup_sys_values w env s).sys_lowmem_limit
        = (setup_sys_values w env s).sys_deny_limit := by
    intro h
    rw [hL, hD]
    unfold setup_lowmem_limit_kB
    rw [if_pos h.symm]
  refine ⟨?_, ?_, ?_⟩
  · intro hq
    exact hunknown ((setup_percent_unknown w env s).2.1 hfirst hq)
  · intro ha
    apply hunknown
    unfold setup_lowmem_percent
    rw [if_pos ha.symm, hfirst]
  · intro ha hq
    obtain ⟨-, hqe, -⟩ := (setup_percent_unknown w env s).2.2 ha
    have hkB : setup_lowmem_limit_kB w env s
        = DIVIDE w ((setup_avail_memory_kB w env
            * get_file_value w env File.lowmem_notify_high) % 2 ^ w) 100 := by
      unfold setup_lowmem_limit_kB
      rw [hqe, if_neg (Ne.symm hq)]
    refine ⟨hkB, hL, ?_⟩
    intro hfit
    have hk : setup_lowmem_limit_kB w env s
        = (setup_avail_memory_kB w env * get_file_value w env File.lowmem_notify_high + 50)
            / 100 := by
      rw [hkB, Nat.mod_eq_of_lt (by omega), DIVIDE_hundred w _ hfit]
    refine ⟨hk, ?_⟩
    intro hfit2
    rw [hL, hk, Nat.mod_eq_of_lt hfit2]

/-- Witness for C13: on 32 bits, a first calibration with no file (the limits
coincide) and one with 20000 allowed pages of 4096 bytes and a notify-high
percentage of 80 (a low-memory limit of 64000 kB). -/
theorem setup_lowmem_limit_witness :
    (State.initial 32).sys_lowmem_limit = NSIZE 32 ∧
    get_file_value 32 (env_of 0 []) File.lowmem_allowed_pages = NSIZE 32 ∧
    (setup_sys_values 32 (env_of 0 []) (State.initial 32)).sys_lowmem_limit
      = (setup_sys_values 32 (env_of 0 []) (State.initial 32)).sys_deny_limit ∧
    get_file_value 32
        (env_of 0 [(File.lowmem_allowed_pages, "20000\n"), (File.lowmem_notify_high, "80\n")])
        File.lowmem_notify_high = 80 ∧
    (setup_sys_values 32
        (env_of 0 [(File.lowmem_allowed_pages, "20000\n"), (File.lowmem_notify_high, "80\n")])
        (State.initial 32)).sys_lowmem_limit = ((80000 * 80 + 50) / 100) * 1024 :=
  ⟨by decide, by decide,
    (setup_lowmem_limit 32 (env_of 0 []) (State.initial 32) (by decide)).2.1 (by decide),
    by decide,
    (((setup_lowmem_limit 32
        (env_of 0 [(File.lowmem_allowed_pages, "20000\n"), (File.lowmem_notify_high, "80\n")])
        (State.initial 32) (by decide)).2.2 (by decide) (by decide)).2.2 (by decide)).2
      (by decide)⟩

/-- C14 as stated fails in two ways.  A `MemTotal` line that is read with the
value 0 is treated as no line: the first `osso_mem_get_avail_ram` returns the
64 MiB fallback, not `(0 >> 2) * 1024`.  And with 32-bit `size_t` a `MemTotal` of
16777216 kB gives 0, not `(16777216 >> 2) * 1024 = 4294967296`. -/
theorem get_avail_ram_zero_or_wraps :
    (load_meminfo 32 (env_of 0 [(File.meminfo, "MemTotal:              0 kB\n")]) [] [0] 1
      = ([0], 1) ∧
     (osso_mem_get_avail_ram 32 (env_of 0 [(File.meminfo, "MemTotal:              0 kB\n")])
        (State.initial 32)).1 = 67108864 ∧
     (67108864 : Nat) ≠ (0 >>> 2) * 1024) ∧
    (load_meminfo 32 (env_of 0 [(File.meminfo, "MemTotal:       16777216 kB\n")]) [] [0] 1
      = ([16777216], 1) ∧
     (osso_mem_get_avail_ram 32 (env_of 0 [(File.meminfo, "MemTotal:       16777216 kB\n")])
        (State.initial 32)).1 = 0 ∧
     (0 : Nat) ≠ (16777216 >>> 2) * 1024) := by
  decide

/-- C14 (amended): the first `osso_mem_get_avail_ram` calibrates and returns
`(MemTotal_kB >> 2) << 10` in `size_t`, exactly `(MemTotal_kB >> 2) * 1024`
whenever that fits, when a `MemTotal` line was read with a nonzero value; it
returns 64 MiB (67108864 bytes) when no `MemTotal` line was read or the value
read is 0. -/
theorem get_avail_ram_first (w : Nat) (hw : 32 ≤ w) (env : Env) (s : State)
    (vals : List Nat) (n : Nat)
    (hfirst : s.sys_avail_ram = NSIZE w)
    (hload : load_meminfo w env env.line_setup [0] 1 = (vals, n)) :
    osso_mem_get_avail_ram w env s
      = ((setup_sys_values w env s).sys_avail_ram, setup_sys_values w env s) ∧
    (n ≠ 0 → vals.getD ID_MEMTOTAL 0 ≠ 0 →
      (osso_mem_get_avail_ram w env s).1 = ((vals.getD ID_MEMTOTAL 0 >>> 2) * 1024) % 2 ^ w ∧
      ((vals.getD ID_MEMTOTAL 0 >>> 2) * 1024 < 2 ^ w →
        (osso_mem_get_avail_ram w env s).1 = (vals.getD ID_MEMTOTAL 0 >>> 2) * 1024)) ∧
    (n = 0 ∨ vals.getD ID_MEMTOTAL 0 = 0 →
      (osso_mem_get_avail_ram w env s).1 = 67108864) := by
  have hcall : osso_mem_get_avail_ram w env s
      = ((setup_sys_values w env s).sys_avail_ram, setup_sys_values w env s) := by
    unfold osso_mem_get_avail_ram
    simp only
    rw [if_pos hfirst.symm]
  have hval : (osso_mem_get_avail_ram w env s).1 = (setup_avail_ram_kB w env * 1024) % 2 ^ w := by
    rw [hcall, setup_sys_values_kB]
    show (setup_avail_ram_kB w env <<< 10) % 2 ^ w = _
    rw [shiftLeft_ten]
  refine ⟨hcall, ?_, ?_⟩
  · intro hn hv
    have hk : setup_avail_ram_kB w env = vals.getD ID_MEMTOTAL 0 >>> 2 := by
      unfold setup_avail_ram_kB
      simp only [hload]
      rw [if_pos ⟨hn, hv⟩]
      rfl
    refine ⟨by rw [hval, hk], ?_⟩
    intro hfit
    rw [hval, hk, Nat.mod_eq_of_lt hfit]
  · intro h
    have hbig : (67108864 : Nat) < 2 ^ w :=
      lt_of_lt_of_le (by norm_num) (Nat.pow_le_pow_right (by decide) hw)
    have hk : setup_avail_ram_kB w env = 65536 := by
      unfold setup_avail_ram_kB
      simp only [hload]
      rw [if_neg (by
        rintro ⟨h1, h2⟩
        rcases h with h | h
        · exact h1 h
        · exact h2 h)]
      rw [shiftLeft_ten]
      exact Nat.mod_eq_of_lt (by omega)
    rw [hval, hk]
    exact Nat.mod_eq_of_lt (by omega)

/-- Witness for C14: the first `osso_mem_get_avail_ram` on the example meminfo
(`MemTotal` 1000000 kB) on 32 bits returns `(1000000 >> 2) * 1024`. -/
theorem get_avail_ram_first_witness :
    (32 ≤ 32) ∧
    (State.initial 32).sys_avail_ram = NSIZE 32 ∧
    load_meminfo 32 (env_of 0 [(File.meminfo, meminfo_example)]) [] [0] 1 = ([1000000], 1) ∧
    (osso_mem_get_avail_ram 32 (env_of 0 [(File.meminfo, meminfo_example)])
      (State.initial 32)).1 = (1000000 >>> 2) * 1024 :=
  ⟨by decide, by decide, by decide,
    ((get_avail_ram_first 32 (by decide) (env_of 0 [(File.meminfo, meminfo_example)])
      (State.initial 32) [1000000] 1 (by decide) (by decide)).2.1 (by decide) (by decide)).2
      (by decide)⟩

/-- C15: called with a null pointer, `osso_mem_get_usage` and
`osso_mem_get_usage_now` return the negative value -1 and change no static
variable, whatever the files and the state: the cache and the four limits are
as before. -/
theorem null_pointer_rejected (w : Nat) (env : Env) (s : State) :
    osso_mem_get_usage w env s none = some ⟨-1, none, s⟩ ∧
    osso_mem_get_usage_now w env s none = some ⟨-1, none, s⟩ ∧
    (-1 : Int) < 0 :=
  ⟨rfl, rfl, by decide⟩

/-- When `osso_mem_get_usage_now`, called with a non-null pointer, returns, it
returns -1 if no field was matched and 0 otherwise. -/
theorem usage_now_code (w : Nat) (env : Env) (s : State) (p : osso_mem_usage_t) (r : Ret)
    (h : osso_mem_get_usage_now w env s (some p) = some r) :
    (r.code = -1 ∧ (load_meminfo w env env.line_usage (List.replicate MAX_MEMINFO_LABELS 0)
        MAX_MEMINFO_LABELS).2 = 0) ∨
    (r.code = 0 ∧ (load_meminfo w env env.line_usage (List.replicate MAX_MEMINFO_LABELS 0)
        MAX_MEMINFO_LABELS).2 ≠ 0) := by
  unfold osso_mem_get_usage_now at h
  simp only at h
  by_cases hn : (load_meminfo w env env.line_usage (List.replicate MAX_MEMINFO_LABELS 0)
      MAX_MEMINFO_LABELS).2 = 0
  · rw [if_pos hn] at h
    exact Or.inl ⟨by rw [← Option.some.inj h], hn⟩
  · rw [if_neg hn] at h
    by_cases ht : ((load_meminfo w env env.line_usage (List.replicate MAX_MEMINFO_LABELS 0)
        MAX_MEMINFO_LABELS).1.getD ID_MEMTOTAL 0 +
        (load_meminfo w env env.line_usage (List.replicate MAX_MEMINFO_LABELS 0)
        MAX_MEMINFO_LABELS).1.getD ID_SWAPTOTAL 0) % 2 ^ w = 0
    · rw [if_pos ht] at h
      cases h
    · rw [if_neg ht] at h
      exact Or.inr ⟨by rw [← Option.some.inj h], hn⟩

/-- C16 (the code divides by zero): when `/proc/meminfo` holds a `Buffers` and a
`Cached` line only, two fields are matched, yet `osso_mem_get_usage_now` does not
return 0: `MemTotal + SwapTotal` is 0 and the call ends in the division
`DIVIDE(100 * used, 0)`.  This holds on 32 and on 64 bits. -/
theorem usage_now_matched_but_no_total :
    load_meminfo 32
        (env_of 0 [(File.meminfo, "Buffers:           2048 kB\nCached:            4096 kB\n")])
        [] (List.replicate MAX_MEMINFO_LABELS 0) MAX_MEMINFO_LABELS
      = ([0, 0, 0, 2048, 4096, 0], 2) ∧
    osso_mem_get_usage_now 32
        (env_of 0 [(File.meminfo, "Buffers:           2048 kB\nCached:            4096 kB\n")])
        (State.initial 32) (some usage_zero) = none ∧
    load_meminfo 64
        (env_of 0 [(File.meminfo, "Buffers:           2048 kB\nCached:            4096 kB\n")])
        [] (List.replicate MAX_MEMINFO_LABELS 0) MAX_MEMINFO_LABELS
      = ([0, 0, 0, 2048, 4096, 0], 2) ∧
    osso_mem_get_usage_now 64
        (env_of 0 [(File.meminfo, "Buffers:           2048 kB\nCached:            4096 kB\n")])
        (State.initial 64) (some usage_zero) = none := by
  decide

/-! ## The matching rule of `load_meminfo` -/

/-- Two characters with the same code are equal. -/
theorem char_toNat_inj (c d : Char) (h : c.toNat = d.toNat) : c = d := by
  rw [← Char.ofNat_toNat c, ← Char.ofNat_toNat d, h]

/-- The call `strncmp(line, name, strlen(name))` returns 0 exactly when `name`, a
string without NUL, is a prefix of `line`, byte for byte. -/
theorem strncmp_zero_iff (name : List Char) (hname : ∀ c ∈ name, c ≠ '\x00')
    (line : List Char) : strncmp line name name.length = 0 ↔ name <+: line := by
  induction name generalizing line with
  | nil => simp [strncmp]
  | cons c name ih =>
    have hc : c ≠ '\x00' := hname c (List.mem_cons_self _ _)
    have hrest : ∀ x ∈ name, x ≠ '\x00' := fun x hx => hname x (List.mem_cons_of_mem _ hx)
    have hdiff : ∀ d : Char, d ≠ c → (d.toNat : Int) - (c.toNat : Int) ≠ 0 := by
      intro d hd h0
      exact hd (char_toNat_inj d c (by omega))
    cases line with
    | nil =>
      simp only [List.length_cons, strncmp, List.headD_nil, List.headD_cons]
      rw [if_pos (Ne.symm hc)]
      constructor
      · intro h
        exact absurd h (hdiff _ (Ne.symm hc))
      · intro h
        exact absurd (List.prefix_nil.mp h) (List.cons_ne_nil _ _)
    | cons d line =>
      simp only [List.length_cons, strncmp, List.headD_cons, List.tail_cons]
      by_cases hd : d = c
      · subst hd
        rw [if_neg (by simp), if_neg hc, ih hrest line]
        constructor
        · intro h
          exact (List.prefix_cons_inj d).mpr h
        · intro h
          exact (List.prefix_cons_inj d).mp h
      · rw [if_pos hd]
        constructor
        · intro h
          exact absurd h (hdiff d hd)
        · intro h
          obtain ⟨t, ht⟩ := h
          simp only [List.cons_append, List.cons.injEq] at ht
          exact absurd ht.1.symm hd

/-- When the `for` loop of `load_meminfo` breaks at an index, that index is free
(its value is zero) and `strncmp` found its label at the start of the line. -/
theorem scan_index_some (line : List Char) (vals : List Nat) :
    ∀ (labels : List (List Char × Nat)) (idx i : Nat),
      scan_index line vals labels idx = some i →
      ∃ k, k < labels.length ∧ i = idx + k ∧ vals.getD i 0 = 0 ∧
        strncmp line (labels.getD k ([], 0)).1 (labels.getD k ([], 0)).2 = 0 := by
  intro labels
  induction labels with
  | nil =>
    intro idx i h
    cases h
  | cons l labels ih =>
    intro idx i h
    obtain ⟨name, len⟩ := l
    unfold scan_index at h
    by_cases h1 : vals.getD idx 0 ≠ 0
    · rw [if_pos h1] at h
      obtain ⟨k, hk, hi, hv, hs⟩ := ih (idx + 1) i h
      exact ⟨k + 1, by simp only [List.length_cons]; omega, by omega, hv, hs⟩
    · rw [if_neg h1] at h
      by_cases h2 : strncmp line name len ≠ 0
      · rw [if_pos h2] at h
        obtain ⟨k, hk, hi, hv, hs⟩ := ih (idx + 1) i h
        exact ⟨k + 1, by simp only [List.length_cons]; omega, by omega, hv, hs⟩
      · rw [if_neg h2] at h
        have hi : idx = i := Option.some.inj h
        subst hi
        exact ⟨0, by simp only [List.length_cons]; omega, rfl, not_not.mp h1, not_not.mp h2⟩

/-- The `for` loop of `load_meminfo` breaks at the first free index whose label
`strncmp` finds at the start of the line, and stores there what `strtoul` reads
behind the label and one more character. -/
theorem scan_first (w : Nat) (line : List Char) (vals : List Nat) :
    ∀ (labels : List (List Char × Nat)) (idx k : Nat),
      k < labels.length →
      vals.getD (idx + k) 0 = 0 →
      strncmp line (labels.getD k ([], 0)).1 (labels.getD k ([], 0)).2 = 0 →
      (∀ j, j < k → ¬ (vals.getD (idx + j) 0 = 0 ∧
        strncmp line (labels.getD j ([], 0)).1 (labels.getD j ([], 0)).2 = 0)) →
      scan_index line vals labels idx = some (idx + k) ∧
      scan_labels w line vals labels idx
        = some (vals.set (idx + k)
            (strtoul w (line.drop ((labels.getD k ([], 0)).2 + 1)))) := by
  intro labels
  induction labels with
  | nil =>
    intro idx k hk
    exact absurd hk (Nat.not_lt_zero _)
  | cons l labels ih =>
    intro idx k hk hv hs hfirst
    obtain ⟨name, len⟩ := l
    cases k with
    | zero =>
      have hv0 : ¬ vals.getD idx 0 ≠ 0 := not_not.mpr hv
      have hs0 : ¬ strncmp line name len ≠ 0 := not_not.mpr hs
      unfold scan_index scan_labels
      rw [if_neg hv0, if_neg hs0, if_neg hv0, if_neg hs0]
      exact ⟨rfl, rfl⟩
    | succ k =>
      have h0 := hfirst 0 (Nat.succ_pos k)
      have hrec := ih (idx + 1) k (Nat.lt_of_succ_lt_succ hk)
        (by rw [Nat.add_assoc, Nat.add_comm 1 k]; exact hv) hs
        (fun j hj => by
          have := hfirst (j + 1) (Nat.succ_lt_succ hj)
          rw [Nat.add_assoc, Nat.add_comm 1 j]
          exact this)
      rw [Nat.add_assoc, Nat.add_comm 1 k] at hrec
      unfold scan_index scan_labels
      by_cases h1 : vals.getD idx 0 ≠ 0
      · rw [if_pos h1, if_pos h1]
        exact hrec
      · rw [if_neg h1, if_neg h1]
        have h2 : strncmp line name len ≠ 0 := fun h => h0 ⟨not_not.mp h1, h⟩
        rw [if_pos h2, if_pos h2]
        exact hrec

/-- The `for` loop of `load_meminfo` runs to the end, and stores nothing, when no
free index has its label at the start of the line. -/
theorem scan_none (w : Nat) (line : List Char) (vals : List Nat) :
    ∀ (labels : List (List Char × Nat)) (idx : Nat),
      (∀ j, j < labels.length → ¬ (vals.getD (idx + j) 0 = 0 ∧
        strncmp line (labels.getD j ([], 0)).1 (labels.getD j ([], 0)).2 = 0)) →
      scan_index line vals labels idx = none ∧ scan_labels w line vals labels idx = none := by
  intro labels
  induction labels with
  | nil =>
    intro idx _
    exact ⟨rfl, rfl⟩
  | cons l labels ih =>
    intro idx hall
    obtain ⟨name, len⟩ := l
    have h0 := hall 0 (by simp only [List.length_cons]; omega)
    have hrec := ih (idx + 1) (fun j hj => by
      have := hall (j + 1) (by simp only [List.length_cons]; omega)
      rw [Nat.add_assoc, Nat.add_comm 1 j]
      exact this)
    unfold scan_index scan_labels
    by_cases h1 : vals.getD idx 0 ≠ 0
    · rw [if_pos h1, if_pos h1]
      exact hrec
    · rw [if_neg h1, if_neg h1]
      have h2 : strncmp line name len ≠ 0 := fun h => h0 ⟨not_not.mp h1, h⟩
      rw [if_pos h2, if_pos h2]
      exact hrec

/-- Every label of `meminfo_labels` is stored with its length and has no NUL. -/
theorem meminfo_labels_wf :
    ∀ l ∈ meminfo_labels, l.2 = l.1.length ∧ ∀ c ∈ l.1, c ≠ '\x00' := by
  decide

/-- No line starts with two different labels of `meminfo_labels`. -/
theorem meminfo_labels_disjoint (line : List Char) (i j : Nat)
    (hi : (meminfo_labels.getD i ([], 0)).1 <+: line)
    (hj : (meminfo_labels.getD j ([], 0)).1 <+: line)
    (hi6 : i < 6) (hj6 : j < 6) : i = j := by
  obtain ⟨t1, h1⟩ := hi
  obtain ⟨t2, h2⟩ := hj
  rw [← h1] at h2
  interval_cases i <;> interval_cases j <;> first
    | rfl
    | (exfalso
       simp [meminfo_labels, List.getD] at h2)

/-- The digits of `strtol`/`strtoul` end at a NUL. -/
theorem digits_value_nul (base : Nat) (b : List Char) :
    ∀ (a : List Char) (acc : Nat),
      digits_value base (a ++ '\x00' :: b) acc = digits_value base a acc := by
  intro a
  induction a with
  | nil =>
    intro acc
    show digits_value base ('\x00' :: b) acc = acc
    unfold digits_value
    rfl
  | cons c a ih =>
    intro acc
    show digits_value base (c :: (a ++ '\x00' :: b)) acc = digits_value base (c :: a) acc
    unfold digits_value
    cases digit_value c with
    | none => rfl
    | some d =>
      simp only
      split_ifs
      · exact ih _
      · rfl

/-- The choice of base in `strto_magnitude`, without pattern matching: base 16
behind `0x` and a hexadecimal digit, base 8 behind any other `0`, else base 10. -/
theorem strto_base (neg : Bool) (s : List Char) :
    (match s with
      | '0' :: x :: h :: rest =>
        if (x = 'x' ∨ x = 'X') ∧ (digit_value h).any (· < 16) then
          (neg, digits_value 16 (h :: rest) 0)
        else (neg, digits_value 8 s 0)
      | '0' :: _ => (neg, digits_value 8 s 0)
      | _ => (neg, digits_value 10 s 0))
    = if s.head? = some '0' then
        (if (s.tail.head? = some 'x' ∨ s.tail.head? = some 'X') ∧
            ((s.tail.tail.head?).bind digit_value).any (· < 16) then
          (neg, digits_value 16 s.tail.tail 0)
        else (neg, digits_value 8 s 0))
      else (neg, digits_value 10 s 0) := by
  split
  · simp
  · next tail hno =>
    rcases tail with _ | ⟨x, _ | ⟨h, rest⟩⟩
    · simp
    · simp
    · exact absurd rfl (hno x h rest)
  · next hno3 hno2 =>
    rcases s with _ | ⟨c, s⟩
    · simp
    · have hc : c ≠ '0' := fun h => hno2 s (by rw [h])
      simp [hc]

/-- The number that `strtol`/`strtoul` read ends at a NUL: what the buffer holds
behind the terminator of the string does not matter. -/
theorem strto_magnitude_nul (a b : List Char) :
    strto_magnitude (a ++ '\x00' :: b) = strto_magnitude a := by
  induction a with
  | nil =>
    simp [strto_magnitude, isspace, digits_value, digit_value]
  | cons c a ih =>
    by_cases hc : isspace c = true
    · have h1 : strto_magnitude (c :: a ++ '\x00' :: b) = strto_magnitude (a ++ '\x00' :: b) := by
        simp [strto_magnitude, List.dropWhile, hc]
      have h2 : strto_magnitude (c :: a) = strto_magnitude a := by
        simp [strto_magnitude, List.dropWhile, hc]
      rw [h1, h2, ih]
    · have hc' : isspace c = false := by simpa using hc
      have happ : (if c = '-' ∨ c = '+' then a.append ('\x00' :: b)
          else c :: a.append ('\x00' :: b))
          = (if c = '-' ∨ c = '+' then a else c :: a) ++ '\x00' :: b := by
        split_ifs <;> rfl
      unfold strto_magnitude
      simp only [List.cons_append, List.dropWhile, hc', List.head?_cons, Option.some.injEq,
        List.tail_cons]
      rw [happ]
      clear happ ih
      generalize (if c = '-' ∨ c = '+' then a else c :: a) = t
      generalize decide (c = '-') = neg
      refine (strto_base neg (t ++ '\x00' :: b)).trans (Eq.trans ?_ (strto_base neg t).symm)
      have hn : digit_value '\x00' = none := by decide
      rcases t with _ | ⟨c1, _ | ⟨c2, _ | ⟨c3, t⟩⟩⟩
      · have h0 := digits_value_nul 10 b [] 0
        simp only [List.nil_append] at h0
        simp [h0]
      · have h8 := digits_value_nul 8 b [c1] 0
        have h10 := digits_value_nul 10 b [c1] 0
        simp only [List.cons_append, List.nil_append] at h8 h10
        simp [h8, h10]
      · have h8 := digits_value_nul 8 b [c1, c2] 0
        have h10 := digits_value_nul 10 b [c1, c2] 0
        simp only [List.cons_append, List.nil_append] at h8 h10
        simp [h8, h10, hn]
      · have h8 := digits_value_nul 8 b (c1 :: c2 :: c3 :: t) 0
        have h10 := digits_value_nul 10 b (c1 :: c2 :: c3 :: t) 0
        have h16 := digits_value_nul 16 b (c3 :: t) 0
        simp only [List.cons_append] at h8 h10 h16
        simp [h8, h10, h16]

/-- The calls `strtoul(s, NULL, 0)` and `strtol(s, NULL, 0)` read a string up to
its terminating NUL only. -/
theorem strtoul_nul (w : Nat) (a b : List Char) :
    strtoul w (a ++ '\x00' :: b) = strtoul w a ∧ strtol w (a ++ '\x00' :: b) = strtol w a := by
  unfold strtoul strtol
  rw [strto_magnitude_nul]
  exact ⟨rfl, rfl⟩

/-- The `for` loop of `load_meminfo` writes one entry, and only one that holds 0. -/
theorem scan_labels_some (w : Nat) (line : List Char) (vals : List Nat) :
    ∀ (labels : List (List Char × Nat)) (idx : Nat) (vals' : List Nat),
      scan_labels w line vals labels idx = some vals' →
      ∃ i v, vals.getD i 0 = 0 ∧ vals' = vals.set i v := by
  intro labels
  induction labels with
  | nil =>
    intro idx vals' h
    cases h
  | cons l labels ih =>
    intro idx vals' h
    obtain ⟨name, len⟩ := l
    unfold scan_labels at h
    by_cases h1 : vals.getD idx 0 ≠ 0
    · rw [if_pos h1] at h
      exact ih (idx + 1) vals' h
    · rw [if_neg h1] at h
      by_cases h2 : strncmp line name len ≠ 0
      · rw [if_pos h2] at h
        exact ih (idx + 1) vals' h
      · rw [if_neg h2] at h
        exact ⟨idx, _, not_not.mp h1, (Option.some.inj h).symm⟩

/-- Writing an entry that holds 0 leaves every nonzero entry as it is. -/
theorem getD_set_of_zero (vals : List Nat) (i v j : Nat) (hi : vals.getD i 0 = 0)
    (hj : vals.getD j 0 ≠ 0) : (vals.set i v).getD j 0 = vals.getD j 0 := by
  have hij : i ≠ j := fun h => hj (h ▸ hi)
  simp only [List.getD_eq_getElem?_getD, List.getElem?_set_ne hij]

/-- The loop of `load_meminfo` never changes a nonzero entry of `vals`, and its
counter never passes `size`. -/
theorem load_loop_keeps (w size : Nat) :
    ∀ (strs : List (List Char)) (buf : List Char) (vals : List Nat) (counter : Nat),
      (∀ j, vals.getD j 0 ≠ 0 →
        (load_loop w size strs buf vals counter).1.getD j 0 = vals.getD j 0) ∧
      (counter ≤ size → (load_loop w size strs buf vals counter).2 ≤ size) ∧
      counter ≤ (load_loop w size strs buf vals counter).2 := by
  intro strs
  induction strs with
  | nil =>
    intro buf vals counter
    exact ⟨fun _ _ => rfl, fun h => h, Nat.le_refl _⟩
  | cons str strs ih =>
    intro buf vals counter
    unfold load_loop
    by_cases hc : counter < size
    · rw [if_pos hc]
      simp only
      cases hscan : scan_labels w (str ++ '\x00' :: List.drop (str.length + 1) buf) vals
          (List.take size meminfo_labels) 0 with
      | none =>
        simp only
        exact ih _ vals counter
      | some vals' =>
        simp only
        obtain ⟨i, v, hi, hv⟩ := scan_labels_some w _ vals _ 0 vals' hscan
        obtain ⟨h1, h2, h3⟩ := ih (str ++ '\x00' :: List.drop (str.length + 1) buf) vals'
          (counter + 1)
        refine ⟨?_, fun _ => h2 hc, by omega⟩
        intro j hj
        have hj' : vals'.getD j 0 = vals.getD j 0 := by
          rw [hv]
          exact getD_set_of_zero vals i v j hi hj
        rw [h1 j (by rw [hj']; exact hj), hj']
    · rw [if_neg hc]
      exact ⟨fun _ _ => rfl, fun h => h, Nat.le_refl _⟩

/-- What holds of `load_meminfo` for every file: a nonzero entry of `vals` is
never overwritten, the count returned is at most `size`, and it is 0 when the
file cannot be opened. -/
theorem load_meminfo_keeps (w : Nat) (env : Env) (line : List Char) (vals : List Nat)
    (size : Nat) :
    (∀ j, vals.getD j 0 ≠ 0 →
      (load_meminfo w env line vals size).1.getD j 0 = vals.getD j 0) ∧
    (load_meminfo w env line vals size).2 ≤ size ∧
    (env.fs File.meminfo = none → load_meminfo w env line vals size = (vals, 0)) := by
  refine ⟨?_, ?_, load_meminfo_none w env line vals size⟩
  · intro j hj
    unfold load_meminfo
    cases env.fs File.meminfo with
    | none => rfl
    | some content => exact (load_loop_keeps w size _ line vals 0).1 j hj
  · unfold load_meminfo
    cases env.fs File.meminfo with
    | none => exact Nat.zero_le _
    | some content => exact (load_loop_keeps w size _ line vals 0).2.1 (Nat.zero_le _)

/-- C17 (the code overwrites a field matched with the value 0): on the lines
`SwapTotal: 0 kB` and `SwapTotal: 500 kB` the first line is matched and stores 0,
which leaves the field looking unset, so the second line is matched too and the
stored value is 500, not the 0 of the first line.  This holds on 32 and on 64
bits. -/
theorem load_meminfo_overwrites_zero :
    load_meminfo 32
        (env_of 0 [(File.meminfo, "SwapTotal:             0 kB\nSwapTotal:           500 kB\n")])
        [] (List.replicate MAX_MEMINFO_LABELS 0) MAX_MEMINFO_LABELS
      = ([0, 500, 0, 0, 0, 0], 2) ∧
    load_meminfo 64
        (env_of 0 [(File.meminfo, "SwapTotal:             0 kB\nSwapTotal:           500 kB\n")])
        [] (List.replicate MAX_MEMINFO_LABELS 0) MAX_MEMINFO_LABELS
      = ([0, 500, 0, 0, 0, 0], 2) := by
  decide

/-- C18 (the code counts a field matched with the value 0 again): on three
`SwapFree` lines holding 0, 0 and 7 the count returned is 3 for one field; and on
six `SwapFree: 0 kB` lines followed by a `MemTotal` line the count reaches 6, the
size of the array, so the loop ends before the `MemTotal` line is read.  This
holds on 32 bits, and the first also on 64. -/
theorem load_meminfo_counts_again :
    load_meminfo 32
        (env_of 0 [(File.meminfo, "SwapFree: 0 kB\nSwapFree: 0 kB\nSwapFree: 7 kB\n")])
        [] (List.replicate MAX_MEMINFO_LABELS 0) MAX_MEMINFO_LABELS
      = ([0, 0, 0, 0, 0, 7], 3) ∧
    load_meminfo 64
        (env_of 0 [(File.meminfo, "SwapFree: 0 kB\nSwapFree: 0 kB\nSwapFree: 7 kB\n")])
        [] (List.replicate MAX_MEMINFO_LABELS 0) MAX_MEMINFO_LABELS
      = ([0, 0, 0, 0, 0, 7], 3) ∧
    load_meminfo 32
        (env_of 0 [(File.meminfo, "SwapFree: 0 kB\nSwapFree: 0 kB\nSwapFree: 0 kB\nSwapFree: 0 kB\nSwapFree: 0 kB\nSwapFree: 0 kB\nMemTotal: 1000 kB\n")])
        [] (List.replicate MAX_MEMINFO_LABELS 0) MAX_MEMINFO_LABELS
      = ([0, 0, 0, 0, 0, 0], 6) := by
  decide

/-- Each of the six labels is stored with its length and has no NUL. -/
theorem meminfo_labels_getD_wf :
    ∀ k, k < 6 → (meminfo_labels.getD k ([], 0)).2 = (meminfo_labels.getD k ([], 0)).1.length ∧
      ∀ c ∈ (meminfo_labels.getD k ([], 0)).1, c ≠ '\x00' := by
  decide

/-- A string without NUL starts the buffer exactly when it starts the string
that `fgets` stored there. -/
theorem prefix_buffer_iff (name str stale : List Char) (hname : ∀ c ∈ name, c ≠ '\x00') :
    name <+: str ++ '\x00' :: stale ↔ name <+: str := by
  constructor
  · intro h
    by_cases hlen : name.length ≤ str.length
    · exact List.prefix_of_prefix_length_le h (List.prefix_append _ _) hlen
    · have h1 : str ++ ['\x00'] <+: str ++ '\x00' :: stale := by
        have := List.prefix_append (str ++ ['\x00']) stale
        rw [List.append_assoc] at this
        exact this
      have hl2 : (str ++ ['\x00']).length ≤ name.length := by
        simp only [List.length_append, List.length_singleton]
        omega
      have h2 : str ++ ['\x00'] <+: name := List.prefix_of_prefix_length_le h1 h hl2
      have h3 : '\x00' ∈ name := h2.subset (by simp)
      exact absurd rfl (hname _ h3)
  · intro h
    exact h.trans (List.prefix_append _ _)

/-- The labels tried for an array of `size` entries are the first `size` labels. -/
theorem take_labels_getD (size k : Nat) (hk : k < size) :
    ((meminfo_labels.take size).getD k ([], 0)) = meminfo_labels.getD k ([], 0) := by
  simp only [List.getD_eq_getElem?_getD, List.getElem?_take, if_pos hk]

/-- The attribution of one line by the `for` loop of `load_meminfo`, for an
array of `size ≤ 6` entries: the line goes to the index `i` exactly when that
entry still holds 0 and the string read by `fgets` begins with the label of `i`. -/
theorem scan_index_iff (str stale : List Char) (vals : List Nat) (size i : Nat)
    (hi : i < size) (hsize : size ≤ MAX_MEMINFO_LABELS) :
    scan_index (str ++ '\x00' :: stale) vals (meminfo_labels.take size) 0 = some i ↔
      vals.getD i 0 = 0 ∧ (meminfo_labels.getD i ([], 0)).1 <+: str := by
  have hsize6 : size ≤ 6 := hsize
  have hlen : (meminfo_labels.take size).length = size := by
    rw [List.length_take]
    exact Nat.min_eq_left hsize6
  have hcond : ∀ k, k < size →
      (strncmp (str ++ '\x00' :: stale) ((meminfo_labels.take size).getD k ([], 0)).1
        ((meminfo_labels.take size).getD k ([], 0)).2 = 0 ↔
        (meminfo_labels.getD k ([], 0)).1 <+: str) := by
    intro k hk
    obtain ⟨hl, hn⟩ := meminfo_labels_getD_wf k (by omega)
    rw [take_labels_getD size k hk, hl, strncmp_zero_iff _ hn, prefix_buffer_iff _ _ _ hn]
  constructor
  · intro h
    obtain ⟨k, hk, hik, hv, hs⟩ := scan_index_some _ vals _ 0 i h
    rw [hlen] at hk
    have hki : i = k := by omega
    subst hki
    exact ⟨hv, (hcond i hk).mp hs⟩
  · rintro ⟨hv, hp⟩
    have h := (scan_first 0 (str ++ '\x00' :: stale) vals (meminfo_labels.take size) 0 i
      (by rw [hlen]; exact hi) (by rw [Nat.zero_add]; exact hv) ((hcond i hi).mpr hp)
      (by
        rintro j hj ⟨-, hsj⟩
        have hpj := (hcond j (by omega)).mp hsj
        have := meminfo_labels_disjoint str j i hpj hp (by omega) (by omega)
        omega)).1
    rw [Nat.zero_add] at h
    exact h

/-- C19 as stated fails.  The value is read by `strtoul` with base 0, not as a
decimal integer: `MemTotal: 0x10 kB` stores 16 and `MemFree: 010 kB` stores 8,
and `Buffers: -1 kB` stores `ULONG_MAX`.  And a line that begins with a label is
not attributed to its field once the field holds a nonzero value: the second
`MemTotal` line changes nothing and is not counted. -/
theorem load_meminfo_base_zero :
    load_meminfo 32
        (env_of 0 [(File.meminfo,
          "MemTotal: 0x10 kB\nMemFree: 010 kB\nBuffers: -1 kB\nMemTotal: 77 kB\n")])
        [] (List.replicate MAX_MEMINFO_LABELS 0) MAX_MEMINFO_LABELS
      = ([16, 0, 8, 4294967295, 0, 0], 3) ∧
    scan_index ("MemTotal: 77 kB\n".toList ++ ['\x00']) [16, 0, 8, 4294967295, 0, 0]
        meminfo_labels 0 = none ∧
    "MemTotal:".toList <+: "MemTotal: 77 kB\n".toList := by
  decide

/-- C19 (amended): in `load_meminfo`, for an array of `size ≤ 6` entries, the
string `str` that `fgets` read is attributed to the field `i < size` exactly when
that field still holds 0 and `str` begins with the field's label byte for byte (a
label differing in case, or appearing later in the line as in `SwapCached:` for
`Cached:`, does not match).  The value stored is what `strtoul` with base 0 reads
behind the label and one more character; when the string goes on behind the
label, that is the number at the start of the remainder of the string, which
`strtoul` reads as decimal, as octal behind a leading `0`, as hexadecimal behind
`0x`, and as 0 when no digit is found. -/
theorem load_meminfo_matching (w : Nat) (str stale : List Char) (vals : List Nat)
    (size i : Nat) (hi : i < size) (hsize : size ≤ MAX_MEMINFO_LABELS) :
    (scan_index (str ++ '\x00' :: stale) vals (meminfo_labels.take size) 0 = some i ↔
      vals.getD i 0 = 0 ∧ (meminfo_labels.getD i ([], 0)).1 <+: str) ∧
    (vals.getD i 0 = 0 → (meminfo_labels.getD i ([], 0)).1 <+: str →
      scan_labels w (str ++ '\x00' :: stale) vals (meminfo_labels.take size) 0
        = some (vals.set i (strtoul w
            ((str ++ '\x00' :: stale).drop ((meminfo_labels.getD i ([], 0)).2 + 1))))) ∧
    (∀ (sep : Char) (rest : List Char),
      str = (meminfo_labels.getD i ([], 0)).1 ++ sep :: rest →
      strtoul w ((str ++ '\x00' :: stale).drop ((meminfo_labels.getD i ([], 0)).2 + 1))
        = strtoul w rest) ∧
    ((∀ j, j < size → ¬ (vals.getD j 0 = 0 ∧ (meminfo_labels.getD j ([], 0)).1 <+: str)) →
      scan_labels w (str ++ '\x00' :: stale) vals (meminfo_labels.take size) 0 = none) ∧
    (scan_labels 32 ("memtotal: 5 kB\n".toList ++ ['\x00']) (List.replicate 6 0)
        meminfo_labels 0 = none ∧
      scan_labels 32 ("SwapCached: 5 kB\n".toList ++ ['\x00']) (List.replicate 6 0)
        meminfo_labels 0 = none ∧
      strtoul 32 " 1000000 kB\n".toList = 1000000 ∧
      strtoul 32 " 017 kB\n".toList = 15 ∧
      strtoul 32 " 0x1F kB\n".toList = 31 ∧
      strtoul 32 " kB\n".toList = 0) := by
  have hsize6 : size ≤ 6 := hsize
  have hlen : (meminfo_labels.take size).length = size := by
    rw [List.length_take]
    exact Nat.min_eq_left hsize6
  have hcond : ∀ k, k < size →
      (strncmp (str ++ '\x00' :: stale) ((meminfo_labels.take size).getD k ([], 0)).1
        ((meminfo_labels.take size).getD k ([], 0)).2 = 0 ↔
        (meminfo_labels.getD k ([], 0)).1 <+: str) := by
    intro k hk
    obtain ⟨hl, hn⟩ := meminfo_labels_getD_wf k (by omega)
    rw [take_labels_getD size k hk, hl, strncmp_zero_iff _ hn, prefix_buffer_iff _ _ _ hn]
  refine ⟨scan_index_iff str stale vals size i hi hsize, ?_, ?_, ?_, by decide⟩
  · intro hv hp
    have h := (scan_first w (str ++ '\x00' :: stale) vals (meminfo_labels.take size) 0 i
      (by rw [hlen]; exact hi) (by rw [Nat.zero_add]; exact hv) ((hcond i hi).mpr hp)
      (by
        rintro j hj ⟨-, hsj⟩
        have hpj := (hcond j (by omega)).mp hsj
        have := meminfo_labels_disjoint str j i hpj hp (by omega) (by omega)
        omega)).2
    rw [Nat.zero_add, take_labels_getD size i hi] at h
    exact h
  · intro sep rest hstr
    obtain ⟨hl, -⟩ := meminfo_labels_getD_wf i (by omega)
    have hdrop : (str ++ '\x00' :: stale).drop ((meminfo_labels.getD i ([], 0)).2 + 1)
        = rest ++ '\x00' :: stale := by
      rw [hstr, hl]
      simp
    rw [hdrop]
    exact (strtoul_nul w rest stale).1
  · intro hall
    refine (scan_none w (str ++ '\x00' :: stale) vals (meminfo_labels.take size) 0 ?_).2
    intro j hj
    rw [hlen] at hj
    rw [Nat.zero_add]
    rintro ⟨hv, hs⟩
    exact hall j hj ⟨hv, (hcond j hj).mp hs⟩

/-- Witness for C19: the line `MemTotal: 1000000 kB` on a fresh array of six
entries, on 32 bits, goes to index 0 with the value 1000000. -/
theorem load_meminfo_matching_witness :
    (0 < 6) ∧ (6 ≤ MAX_MEMINFO_LABELS) ∧
    (List.replicate 6 0).getD 0 0 = 0 ∧
    "MemTotal:".toList <+: "MemTotal: 1000000 kB\n".toList ∧
    scan_labels 32 ("MemTotal: 1000000 kB\n".toList ++ '\x00' :: []) (List.replicate 6 0)
        (meminfo_labels.take 6) 0
      = some ((List.replicate 6 0).set 0 (strtoul 32
          (("MemTotal: 1000000 kB\n".toList ++ '\x00' :: []).drop (9 + 1)))) ∧
    strtoul 32 (("MemTotal: 1000000 kB\n".toList ++ '\x00' :: []).drop (9 + 1)) = 1000000 :=
  ⟨by decide, by decide, by decide, by decide,
    (load_meminfo_matching 32 "MemTotal: 1000000 kB\n".toList [] (List.replicate 6 0) 6 0
      (by decide) (by decide)).2.1 (by decide) (by decide),
    by decide⟩

/-! ## The single-value files -/

/-- On a stream that is not at its end, `fgets` stores a string. -/
theorem fgets_all_cons_ne_nil (n : Nat) :
    ∀ (s : List Char) (c : Char) (cur : List Char), fgets_all n (c :: s) cur ≠ [] := by
  intro s
  induction s with
  | nil =>
    intro c cur
    unfold fgets_all
    split_ifs
    · exact List.cons_ne_nil _ _
    · unfold fgets_all
      rw [if_neg (List.cons_ne_nil _ _)]
      exact List.cons_ne_nil _ _
  | cons d s ih =>
    intro c cur
    unfold fgets_all
    split_ifs
    · exact List.cons_ne_nil _ _
    · exact ih d (c :: cur)

/-- The call `fgets` returns `NULL` exactly on an empty file. -/
theorem fgets_none_iff (n : Nat) (content : List Char) :
    fgets n content = none ↔ content = [] := by
  unfold fgets
  cases content with
  | nil => simp [fgets_all]
  | cons c s =>
    have h := fgets_all_cons_ne_nil n s c []
    cases hfa : fgets_all n (c :: s) [] with
    | nil => exact absurd hfa h
    | cons x xs => simp

/-- The value of `strtol` lies between `LONG_MIN` and `LONG_MAX`. -/
theorem strtol_bounds (w : Nat) (s : List Char) :
    -((2 ^ (w - 1) : Nat) : Int) ≤ strtol w s ∧ strtol w s ≤ ((2 ^ (w - 1) : Nat) : Int) - 1 := by
  unfold strtol
  have hpos : 0 < 2 ^ (w - 1) := Nat.pos_pow_of_pos _ (by decide)
  have hcast : ((2 ^ (w - 1) : Nat) : Int) = (2 : Int) ^ (w - 1) := by push_cast; rfl
  rw [← hcast]
  generalize strto_magnitude s = nm
  obtain ⟨neg, m⟩ := nm
  simp only
  generalize 2 ^ (w - 1) = P at hpos
  split_ifs <;> omega

/-- A string that starts with its terminating NUL is read by `strtol` as 0. -/
theorem strtol_of_nul (w : Nat) (line : List Char) (h : line.headD '\x00' = '\x00') :
    strtol w line = 0 := by
  have hm : strto_magnitude line = (false, 0) := by
    cases line with
    | nil => simp [strto_magnitude, digits_value]
    | cons c t =>
      simp only [List.headD_cons] at h
      subst h
      have := strto_magnitude_nul [] t
      rw [List.nil_append] at this
      rw [this]
      simp [strto_magnitude, digits_value]
  unfold strtol
  rw [hm]
  have hpos : 0 < 2 ^ (w - 1) := Nat.pos_pow_of_pos _ (by decide)
  simp only [Bool.false_eq_true, if_false]
  rw [if_neg (by omega)]
  rfl

/-- The value of `get_file_value` on a file that can be opened and is not empty:
the number `strtol` reads in the first string, when it is positive, and `NSIZE`
when it is not. -/
theorem get_file_value_some (w : Nat) (hw : 32 ≤ w) (env : Env) (f : File)
    (content line : List Char) (hfs : env.fs f = some content)
    (hline : fgets 31 content = some line) :
    (0 < strtol w line → (get_file_value w env f : Int) = strtol w line ∧
      get_file_value w env f ≠ NSIZE w ∧ get_file_value w env f ≠ 0) ∧
    (strtol w line ≤ 0 → get_file_value w env f = NSIZE w) := by
  have hP : 2 ^ w = 2 ^ (w - 1) * 2 := by
    rw [← pow_succ]
    congr 1
    omega
  have hpos : 0 < 2 ^ (w - 1) := Nat.pos_pow_of_pos _ (by decide)
  obtain ⟨-, hub⟩ := strtol_bounds w line
  have hunfold : get_file_value w env f
      = if line.headD '\x00' ≠ '\x00' then
          (if strtol w line > 0 then (strtol w line).toNat % 2 ^ w else NSIZE w)
        else NSIZE w := by
    unfold get_file_value
    rw [hfs]
    simp only [hline, Option.getD_some]
  constructor
  · intro hv
    have hhead : line.headD '\x00' ≠ '\x00' := by
      intro h0
      rw [strtol_of_nul w line h0] at hv
      exact absurd hv (by decide)
    rw [hunfold, if_pos hhead, if_pos hv]
    have hlt : (strtol w line).toNat < 2 ^ w := by omega
    rw [Nat.mod_eq_of_lt hlt]
    refine ⟨Int.toNat_of_nonneg (le_of_lt hv), ?_, ?_⟩
    · unfold NSIZE
      omega
    · omega
  · intro hv
    rw [hunfold]
    split_ifs with h1 h2
    · omega
    · rfl
    · rfl

/-- C20: `get_file_value` returns `NSIZE` if and only if the file is missing, is
empty, or the integer that `strtol` parses from its first string is not positive;
otherwise it returns that positive value.  It never returns 0.  (For `size_t` of
at least 32 bits.) -/
theorem get_file_value_spec (w : Nat) (hw : 32 ≤ w) (env : Env) (f : File) :
    (get_file_value w env f = NSIZE w ↔
      env.fs f = none ∨ env.fs f = some [] ∨
      ∃ content line, env.fs f = some content ∧ fgets 31 content = some line ∧
        strtol w line ≤ 0) ∧
    (∀ content line, env.fs f = some content → fgets 31 content = some line →
      0 < strtol w line → (get_file_value w env f : Int) = strtol w line) ∧
    get_file_value w env f ≠ 0 := by
  have hN : NSIZE w ≠ 0 := by
    have : 1 < 2 ^ w := Nat.one_lt_two_pow (by omega)
    unfold NSIZE
    omega
  have hempty : env.fs f = some [] → get_file_value w env f = NSIZE w := by
    intro h
    unfold get_file_value
    rw [h]
    rfl
  refine ⟨?_, ?_, ?_⟩
  · constructor
    · intro h
      cases hfs : env.fs f with
      | none => exact Or.inl rfl
      | some content =>
        cases hline : fgets 31 content with
        | none =>
          rw [(fgets_none_iff 31 content).mp hline]
          exact Or.inr (Or.inl rfl)
        | some line =>
          refine Or.inr (Or.inr ⟨content, line, rfl, hline, ?_⟩)
          by_contra hpos
          exact ((get_file_value_some w hw env f content line hfs hline).1
            (by omega)).2.1 h
    · rintro (h | h | ⟨content, line, hfs, hline, hv⟩)
      · exact get_file_value_none w env f h
      · exact hempty h
      · exact (get_file_value_some w hw env f content line hfs hline).2 hv
  · intro content line hfs hline hv
    exact ((get_file_value_some w hw env f content line hfs hline).1 hv).1
  · cases hfs : env.fs f with
    | none => rw [get_file_value_none w env f hfs]; exact hN
    | some content =>
      cases hline : fgets 31 content with
      | none =>
        rw [(fgets_none_iff 31 content).mp hline] at hfs
        rw [hempty hfs]
        exact hN
      | some line =>
        by_cases hv : 0 < strtol w line
        · exact ((get_file_value_some w hw env f content line hfs hline).1 hv).2.2
        · rw [(get_file_value_some w hw env f content line hfs hline).2 (by omega)]
          exact hN

/-- Witness for C20: on 32 bits, a file holding `5000`, a file holding `0`, an
empty file and a missing file. -/
theorem get_file_value_spec_witness :
    (32 ≤ 32) ∧
    get_file_value 32 (env_of 0 [(File.lowmem_free_pages, "5000\n")]) File.lowmem_free_pages
      = 5000 ∧
    strtol 32 "0\n".toList ≤ 0 ∧
    get_file_value 32 (env_of 0 [(File.lowmem_free_pages, "0\n")]) File.lowmem_free_pages
      = NSIZE 32 ∧
    get_file_value 32 (env_of 0 [(File.lowmem_free_pages, "")]) File.lowmem_free_pages
      = NSIZE 32 ∧
    get_file_value 32 (env_of 0 []) File.lowmem_free_pages = NSIZE 32 :=
  ⟨by decide, by decide, by decide,
    (get_file_value_spec 32 (by decide) (env_of 0 [(File.lowmem_free_pages, "0\n")])
      File.lowmem_free_pages).1.mpr
      (Or.inr (Or.inr ⟨"0\n".toList, "0\n".toList, rfl, by decide, by decide⟩)),
    (get_file_value_spec 32 (by decide) (env_of 0 [(File.lowmem_free_pages, "")])
      File.lowmem_free_pages).1.mpr (Or.inr (Or.inl rfl)),
    (get_file_value_spec 32 (by decide) (env_of 0 []) File.lowmem_free_pages).1.mpr
      (Or.inl rfl)⟩

/-! ## The free memory above the notification level -/

/-- C21 as stated fails.  With 32-bit `size_t`, 2000000 free pages, 1000
notify-high pages and pages of 4096 bytes, both values are available and
`free_pages > high_pages`, but the first call of `osso_mem_get_free` returns
3892936704, not `(2000000 - 1000) * 4096 = 8187904000`: the product is computed
in `size_t` and wraps. -/
theorem get_free_wraps :
    get_free_pages 32
        (env_of 0 [(File.lowmem_free_pages, "2000000\n"),
                   (File.lowmem_notify_high_pages, "1000\n")]) = 2000000 ∧
    get_file_value 32
        (env_of 0 [(File.lowmem_free_pages, "2000000\n"),
                   (File.lowmem_notify_high_pages, "1000\n")]) File.lowmem_notify_high_pages
      = 1000 ∧
    (osso_mem_get_free 32
        (env_of 0 [(File.lowmem_free_pages, "2000000\n"),
                   (File.lowmem_notify_high_pages, "1000\n")]) (State.initial 32)).1
      = 3892936704 ∧
    (osso_mem_get_free 32
        (env_of 0 [(File.lowmem_free_pages, "2000000\n"),
                   (File.lowmem_notify_high_pages, "1000\n")]) (State.initial 32)).1
      ≠ (2000000 - 1000) * 4096 := by
  decide

/-- C21, amended: with `high_pages` and `page_size` the values the function
holds after its first lines (read from the notify-high-pages file and from
`sysconf` while the stored `pg_high` is 0, the stored ones afterwards) and
`free_pages` the value of `get_free_pages`: when `high_pages` or `free_pages` is
`NSIZE` the call returns what `osso_mem_get_avail_ram` returns; otherwise it
returns `(free_pages - high_pages) * page_size` reduced modulo `2 ^ w`, which is
the exact product when that is below `2 ^ w`, if `free_pages > high_pages`, and
0 if `free_pages <= high_pages`. -/
theorem get_free_spec (w : Nat) (env : Env) (s : State) (high_pages page_size : Nat)
    (hhigh : high_pages = if s.pg_high = 0
      then get_file_value w env File.lowmem_notify_high_pages else s.pg_high)
    (hsize : page_size = if s.pg_high = 0 then env.pagesize % 2 ^ w else s.pg_size) :
    (high_pages = NSIZE w ∨ get_free_pages w env = NSIZE w →
      (osso_mem_get_free w env s).1 = (osso_mem_get_avail_ram w env s).1) ∧
    (high_pages ≠ NSIZE w → get_free_pages w env ≠ NSIZE w →
      (get_free_pages w env > high_pages →
        (osso_mem_get_free w env s).1
          = ((get_free_pages w env - high_pages) * page_size) % 2 ^ w ∧
        ((get_free_pages w env - high_pages) * page_size < 2 ^ w →
          (osso_mem_get_free w env s).1 = (get_free_pages w env - high_pages) * page_size)) ∧
      (get_free_pages w env ≤ high_pages → (osso_mem_get_free w env s).1 = 0)) := by
  have hs1 : (if s.pg_high = 0 then
      { s with pg_high := get_file_value w env File.lowmem_notify_high_pages
               pg_size := env.pagesize % 2 ^ w } else s).pg_high = high_pages := by
    rw [hhigh]
    by_cases h0 : s.pg_high = 0
    · rw [if_pos h0, if_pos h0]
    · rw [if_neg h0, if_neg h0]
  have hs2 : (if s.pg_high = 0 then
      { s with pg_high := get_file_value w env File.lowmem_notify_high_pages
               pg_size := env.pagesize % 2 ^ w } else s).pg_size = page_size := by
    rw [hsize]
    by_cases h0 : s.pg_high = 0
    · rw [if_pos h0, if_pos h0]
    · rw [if_neg h0, if_neg h0]
  have hs3 : (osso_mem_get_avail_ram w env (if s.pg_high = 0 then
      { s with pg_high := get_file_value w env File.lowmem_notify_high_pages
               pg_size := env.pagesize % 2 ^ w } else s)).1
      = (osso_mem_get_avail_ram w env s).1 := by
    by_cases h0 : s.pg_high = 0
    · rw [if_pos h0]
      unfold osso_mem_get_avail_ram
      simp only
      by_cases hn : NSIZE w = s.sys_avail_ram
      · rw [if_pos hn, if_pos hn]
        rfl
      · rw [if_neg hn, if_neg hn]
    · rw [if_neg h0]
  unfold osso_mem_get_free
  simp only
  rw [hs1, hs2]
  refine ⟨?_, ?_⟩
  · intro h
    rw [if_pos (by rcases h with h | h; exact Or.inl h.symm; exact Or.inr h.symm)]
    exact hs3
  · intro hh hf
    rw [if_neg (by
      intro h
      rcases h with h | h
      · exact hh h.symm
      · exact hf h.symm)]
    simp only
    refine ⟨?_, ?_⟩
    · intro hgt
      rw [if_pos hgt]
      exact ⟨rfl, fun hlt => Nat.mod_eq_of_lt hlt⟩
    · intro hle
      rw [if_neg (by omega)]

/-- Witness for C21: 5000 free pages, 1000 notify-high pages, pages of 4096
bytes, on the first call. -/
theorem get_free_spec_witness :
    (osso_mem_get_free 32
        (env_of 0 [(File.lowmem_free_pages, "5000\n"),
                   (File.lowmem_notify_high_pages, "1000\n")]) (State.initial 32)).1
      = (5000 - 1000) * 4096 :=
  ((((get_free_spec 32
    (env_of 0 [(File.lowmem_free_pages, "5000\n"), (File.lowmem_notify_high_pages, "1000\n")])
    (State.initial 32) 1000 4096 (by decide) (by decide)).2 (by decide) (by decide)).1
      (by decide)).2 (by decide)).trans (by decide)

/-! ## The allocation watchdog as the program has it -/

/-- C27 as stated fails.  When no file can be opened, the first run of
`setup_sys_values` stores 65011712 in `sys_deny_limit` and `sys_lowmem_limit`;
the second run, on the state the first one left and the same files, finds these
no longer `NSIZE`, takes them for percentages and stores 0 in both with 32-bit
`size_t` and 43628621389824 with 64-bit `size_t`. -/
theorem setup_twice_differs :
    (setup_sys_values 32 (env_of 0 []) (State.initial 32)).sys_deny_limit = 65011712 ∧
    (setup_sys_values 32 (env_of 0 []) (State.initial 32)).sys_lowmem_limit = 65011712 ∧
    (setup_sys_values 32 (env_of 0 [])
      (setup_sys_values 32 (env_of 0 []) (State.initial 32))).sys_deny_limit = 0 ∧
    (setup_sys_values 32 (env_of 0 [])
      (setup_sys_values 32 (env_of 0 []) (State.initial 32))).sys_lowmem_limit = 0 ∧
    (setup_sys_values 64 (env_of 0 []) (State.initial 64)).sys_deny_limit = 65011712 ∧
    (setup_sys_values 64 (env_of 0 [])
      (setup_sys_values 64 (env_of 0 []) (State.initial 64))).sys_deny_limit
        = 43628621389824 := by
  decide

/-- C27, amended: a second run of `setup_sys_values` on the state left by a first
run, with the same files, always leaves `sys_avail_ram` and `sys_avail_memory`
equal to the values of the first run; when the allowed-pages value is known it
leaves the whole state equal; when the allowed-pages value is unknown it
replaces `sys_deny_limit` and `sys_lowmem_limit` by `DIVIDE(avail_memory * limit,
100) << 10`, computed in `size_t` from the available memory in kilobytes and the
limit in bytes that the first run stored. -/
theorem setup_twice (w : Nat) (env : Env) (s : State) :
    (setup_sys_values w env (setup_sys_values w env s)).sys_avail_ram
      = (setup_sys_values w env s).sys_avail_ram ∧
    (setup_sys_values w env (setup_sys_values w env s)).sys_avail_memory
      = (setup_sys_values w env s).sys_avail_memory ∧
    (get_file_value w env File.lowmem_allowed_pages ≠ NSIZE w →
      setup_sys_values w env (setup_sys_values w env s) = setup_sys_values w env s) ∧
    (32 ≤ w → get_file_value w env File.lowmem_allowed_pages = NSIZE w →
      (setup_sys_values w env (setup_sys_values w env s)).sys_deny_limit
        = (DIVIDE w ((setup_avail_memory_kB w env * (setup_sys_values w env s).sys_deny_limit)
            % 2 ^ w) 100 <<< 10) % 2 ^ w ∧
      (setup_sys_values w env (setup_sys_values w env s)).sys_lowmem_limit
        = (DIVIDE w ((setup_avail_memory_kB w env * (setup_sys_values w env s).sys_lowmem_limit)
            % 2 ^ w) 100 <<< 10) % 2 ^ w) := by
  refine ⟨rfl, rfl, ?_, ?_⟩
  · intro ha
    have hd : ∀ t : State, setup_deny_percent w env t
        = get_file_value w env File.lowmem_deny_watermark := fun t =>
      ((setup_percent_unknown w env t).2.2 ha).1
    have hl : ∀ t : State, setup_lowmem_percent w env t
        = get_file_value w env File.lowmem_notify_high := fun t =>
      ((setup_percent_unknown w env t).2.2 ha).2.1
    have hdk : ∀ t : State, setup_deny_limit_kB w env t = setup_deny_limit_kB w env s := by
      intro t
      unfold setup_deny_limit_kB
      rw [hd t, hd s]
    have hlk : ∀ t : State, setup_lowmem_limit_kB w env t = setup_lowmem_limit_kB w env s := by
      intro t
      unfold setup_lowmem_limit_kB
      rw [hl t, hl s, hdk t]
    rw [setup_sys_values_kB w env (setup_sys_values w env s), hdk, hlk,
      setup_sys_values_kB w env s]
  · intro hw ha
    obtain ⟨-, -, ⟨xd, hxd⟩, ⟨xl, hxl⟩⟩ := setup_fields w env s
    have hdne : NSIZE w ≠ (setup_sys_values w env s).sys_deny_limit := by
      rw [hxd]
      exact (shift_ne_NSIZE w hw xd).symm
    have hlne : NSIZE w ≠ (setup_sys_values w env s).sys_lowmem_limit := by
      rw [hxl]
      exact (shift_ne_NSIZE w hw xl).symm
    have hd : setup_deny_percent w env (setup_sys_values w env s)
        = (setup_sys_values w env s).sys_deny_limit := by
      unfold setup_deny_percent
      rw [if_pos ha.symm]
    have hl : setup_lowmem_percent w env (setup_sys_values w env s)
        = (setup_sys_values w env s).sys_lowmem_limit := by
      unfold setup_lowmem_percent
      rw [if_pos ha.symm]
    have hdk : setup_deny_limit_kB w env (setup_sys_values w env s)
        = DIVIDE w ((setup_avail_memory_kB w env * (setup_sys_values w env s).sys_deny_limit)
            % 2 ^ w) 100 := by
      unfold setup_deny_limit_kB
      rw [hd, if_neg hdne]
    have hlk : setup_lowmem_limit_kB w env (setup_sys_values w env s)
        = DIVIDE w ((setup_avail_memory_kB w env * (setup_sys_values w env s).sys_lowmem_limit)
            % 2 ^ w) 100 := by
      unfold setup_lowmem_limit_kB
      rw [hl, if_neg hlne]
    rw [← hdk, ← hlk]
    exact ⟨rfl, rfl⟩

/-- Witness for C27: with 20000 allowed pages, a deny watermark of 80 percent and
a notify-high value of 70 percent the second run changes nothing; with no file
the second run stores `DIVIDE(65536 * 65011712, 100) << 10` on 64 bits. -/
theorem setup_twice_witness :
    setup_sys_values 32
        (env_of 0 [(File.lowmem_allowed_pages, "20000\n"), (File.lowmem_deny_watermark, "80\n"),
                   (File.lowmem_notify_high, "70\n")])
        (setup_sys_values 32
          (env_of 0 [(File.lowmem_allowed_pages, "20000\n"),
                     (File.lowmem_deny_watermark, "80\n"), (File.lowmem_notify_high, "70\n")])
          (State.initial 32))
      = setup_sys_values 32
        (env_of 0 [(File.lowmem_allowed_pages, "20000\n"), (File.lowmem_deny_watermark, "80\n"),
                   (File.lowmem_notify_high, "70\n")])
        (State.initial 32) ∧
    (setup_sys_values 64 (env_of 0 [])
        (setup_sys_values 64 (env_of 0 []) (State.initial 64))).sys_deny_limit
      = 43628621389824 :=
  ⟨(setup_twice 32
      (env_of 0 [(File.lowmem_allowed_pages, "20000\n"), (File.lowmem_deny_watermark, "80\n"),
                 (File.lowmem_notify_high, "70\n")])
      (State.initial 32)).2.2.1 (by decide),
    ((setup_twice 64 (env_of 0 []) (State.initial 64)).2.2.2 (by decide) (by decide)).1.trans
      (by decide)⟩

/-- C28 as stated fails.  With 20000 allowed pages of 4096 bytes, a deny watermark
of 80 percent and a notify-high value of 95 percent, `setup_sys_values` stores
`sys_deny_limit = 65536000` and `sys_lowmem_limit = 77824000`, with 32-bit and
with 64-bit `size_t`: each limit is its own percentage of the available memory,
and nothing orders the two percentages. -/
theorem setup_lowmem_above_deny :
    (setup_sys_values 32
        (env_of 0 [(File.lowmem_allowed_pages, "20000\n"), (File.lowmem_deny_watermark, "80\n"),
                   (File.lowmem_notify_high, "95\n")]) (State.initial 32)).sys_deny_limit
      = 65536000 ∧
    (setup_sys_values 32
        (env_of 0 [(File.lowmem_allowed_pages, "20000\n"), (File.lowmem_deny_watermark, "80\n"),
                   (File.lowmem_notify_high, "95\n")]) (State.initial 32)).sys_lowmem_limit
      = 77824000 ∧
    (setup_sys_values 64
        (env_of 0 [(File.lowmem_allowed_pages, "20000\n"), (File.lowmem_deny_watermark, "80\n"),
                   (File.lowmem_notify_high, "95\n")]) (State.initial 64)).sys_deny_limit
      = 65536000 ∧
    (setup_sys_values 64
        (env_of 0 [(File.lowmem_allowed_pages, "20000\n"), (File.lowmem_deny_watermark, "80\n"),
                   (File.lowmem_notify_high, "95\n")]) (State.initial 64)).sys_lowmem_limit
      = 77824000 ∧
    ¬ (77824000 ≤ 65536000) := by
  decide

/-- C28, amended: after `setup_sys_values`, `sys_lowmem_limit` equals
`sys_deny_limit` when the notify-high percentage is unknown (`NSIZE`).  When both
percentages are known, `sys_lowmem_limit <= sys_deny_limit` holds if the
notify-high percentage is at most the deny-watermark percentage and neither
`avail_memory * deny_percent + 50` (in kilobytes) nor the deny limit in bytes
reaches `2 ^ w`.  When only the deny-watermark percentage is unknown, it holds if
the notify-high percentage is at most 96 and neither
`avail_memory * percent + 50` nor the available memory in bytes reaches
`2 ^ w`. -/
theorem setup_lowmem_le_deny (w : Nat) (env : Env) (s : State) :
    (setup_lowmem_percent w env s = NSIZE w →
      (setup_sys_values w env s).sys_lowmem_limit = (setup_sys_values w env s).sys_deny_limit) ∧
    (setup_deny_percent w env s ≠ NSIZE w → setup_lowmem_percent w env s ≠ NSIZE w →
      setup_lowmem_percent w env s ≤ setup_deny_percent w env s →
      setup_avail_memory_kB w env * setup_deny_percent w env s + 50 < 2 ^ w →
      setup_deny_limit_kB w env s * 1024 < 2 ^ w →
      (setup_sys_values w env s).sys_lowmem_limit ≤ (setup_sys_values w env s).sys_deny_limit) ∧
    (setup_deny_percent w env s = NSIZE w → setup_lowmem_percent w env s ≠ NSIZE w →
      setup_lowmem_percent w env s ≤ 96 →
      setup_avail_memory_kB w env * setup_lowmem_percent w env s + 50 < 2 ^ w →
      setup_avail_memory_kB w env * 1024 < 2 ^ w →
      (setup_sys_values w env s).sys_lowmem_limit
        ≤ (setup_sys_values w env s).sys_deny_limit) := by
  have hfield : (setup_sys_values w env s).sys_lowmem_limit
        = (setup_lowmem_limit_kB w env s * 1024) % 2 ^ w ∧
      (setup_sys_values w env s).sys_deny_limit
        = (setup_deny_limit_kB w env s * 1024) % 2 ^ w := by
    rw [setup_sys_values_kB]
    refine ⟨?_, ?_⟩
    · show (_ <<< 10) % 2 ^ w = _
      rw [shiftLeft_ten]
    · show (_ <<< 10) % 2 ^ w = _
      rw [shiftLeft_ten]
  refine ⟨?_, ?_, ?_⟩
  · intro hl
    rw [hfield.1, hfield.2]
    unfold setup_lowmem_limit_kB
    rw [if_pos hl.symm]
  · intro hd hl hle hfit hbytes
    rw [hfield.1, hfield.2]
    have hmul : setup_avail_memory_kB w env * setup_lowmem_percent w env s
        ≤ setup_avail_memory_kB w env * setup_deny_percent w env s :=
      Nat.mul_le_mul_left _ hle
    have hdk : setup_deny_limit_kB w env s
        = (setup_avail_memory_kB w env * setup_deny_percent w env s + 50) / 100 := by
      unfold setup_deny_limit_kB
      rw [if_neg (Ne.symm hd), Nat.mod_eq_of_lt (by omega), DIVIDE_hundred w _ hfit]
    have hlk : setup_lowmem_limit_kB w env s
        = (setup_avail_memory_kB w env * setup_lowmem_percent w env s + 50) / 100 := by
      unfold setup_lowmem_limit_kB
      rw [if_neg (Ne.symm hl), Nat.mod_eq_of_lt (by omega), DIVIDE_hundred w _ (by omega)]
    have hkk : setup_lowmem_limit_kB w env s ≤ setup_deny_limit_kB w env s := by
      rw [hdk, hlk]
      exact Nat.div_le_div_right (by omega)
    rw [Nat.mod_eq_of_lt hbytes, Nat.mod_eq_of_lt (by omega)]
    omega
  · intro hd hl hle hfit hbytes
    rw [hfield.1, hfield.2]
    have hmul : setup_avail_memory_kB w env * setup_lowmem_percent w env s
        ≤ setup_avail_memory_kB w env * 96 :=
      Nat.mul_le_mul_left _ hle
    have hdk : setup_deny_limit_kB w env s
        = setup_avail_memory_kB w env - setup_avail_memory_kB w env / 32 := by
      unfold setup_deny_limit_kB
      rw [if_pos hd.symm, Nat.shiftRight_eq_div_pow]
    have hlk : setup_lowmem_limit_kB w env s
        = (setup_avail_memory_kB w env * setup_lowmem_percent w env s + 50) / 100 := by
      unfold setup_lowmem_limit_kB
      rw [if_neg (Ne.symm hl), Nat.mod_eq_of_lt (by omega), DIVIDE_hundred w _ hfit]
    have hkk : setup_lowmem_limit_kB w env s ≤ setup_deny_limit_kB w env s := by
      rw [hdk, hlk]
      have h1 : (setup_avail_memory_kB w env * setup_lowmem_percent w env s + 50) / 100
          ≤ (setup_avail_memory_kB w env * 96 + 50) / 100 :=
        Nat.div_le_div_right (by omega)
      omega
    have hdle : setup_deny_limit_kB w env s ≤ setup_avail_memory_kB w env := by
      rw [hdk]
      omega
    rw [Nat.mod_eq_of_lt (by omega), Nat.mod_eq_of_lt (by omega)]
    omega

/-- Witness for C28: no notify-high file; 20000 allowed pages with a deny
watermark of 80 percent and a notify-high value of 70 percent; the same pages
with a notify-high value of 90 percent and no deny watermark. -/
theorem setup_lowmem_le_deny_witness :
    (setup_sys_values 32 (env_of 0 []) (State.initial 32)).sys_lowmem_limit
      = (setup_sys_values 32 (env_of 0 []) (State.initial 32)).sys_deny_limit ∧
    (setup_sys_values 32
        (env_of 0 [(File.lowmem_allowed_pages, "20000\n"), (File.lowmem_deny_watermark, "80\n"),
                   (File.lowmem_notify_high, "70\n")]) (State.initial 32)).sys_lowmem_limit
      ≤ (setup_sys_values 32
        (env_of 0 [(File.lowmem_allowed_pages, "20000\n"), (File.lowmem_deny_watermark, "80\n"),
                   (File.lowmem_notify_high, "70\n")]) (State.initial 32)).sys_deny_limit ∧
    (setup_sys_values 32
        (env_of 0 [(File.lowmem_allowed_pages, "20000\n"), (File.lowmem_notify_high, "90\n")])
        (State.initial 32)).sys_lowmem_limit
      ≤ (setup_sys_values 32
        (env_of 0 [(File.lowmem_allowed_pages, "20000\n"), (File.lowmem_notify_high, "90\n")])
        (State.initial 32)).sys_deny_limit :=
  ⟨(setup_lowmem_le_deny 32 (env_of 0 []) (State.initial 32)).1 (by decide),
    (setup_lowmem_le_deny 32
      (env_of 0 [(File.lowmem_allowed_pages, "20000\n"), (File.lowmem_deny_watermark, "80\n"),
                 (File.lowmem_notify_high, "70\n")]) (State.initial 32)).2.1
      (by decide) (by decide) (by decide) (by decide) (by decide),
    (setup_lowmem_le_deny 32
      (env_of 0 [(File.lowmem_allowed_pages, "20000\n"), (File.lowmem_notify_high, "90\n")])
      (State.initial 32)).2.2
      (by decide) (by decide) (by decide) (by decide) (by decide)⟩

/-! ## The cache without a free-pages value, and the cache before its first entry -/

/-- The value `NSIZE` is not 0 when `size_t` has at least one bit. -/
theorem NSIZE_ne_zero (w : Nat) (hw : 32 ≤ w) : NSIZE w ≠ 0 := by
  have h : 2 ^ 1 ≤ 2 ^ w := Nat.pow_le_pow_right (by decide) (by omega)
  unfold NSIZE
  omega

/-- The function `get_file_value` never returns 0. -/
theorem get_file_value_ne_zero (w : Nat) (hw : 32 ≤ w) (env : Env) (f : File) :
    get_file_value w env f ≠ 0 := by
  cases hfs : env.fs f with
  | none =>
    rw [get_file_value_none w env f hfs]
    exact NSIZE_ne_zero w hw
  | some content =>
    cases hline : fgets 31 content with
    | none =>
      have hN : get_file_value w env f = NSIZE w := by
        unfold get_file_value
        rw [hfs]
        simp only [hline]
        rfl
      rw [hN]
      exact NSIZE_ne_zero w hw
    | some line =>
      obtain ⟨h1, h2⟩ := get_file_value_some w hw env f content line hfs hline
      by_cases hpos : 0 < strtol w line
      · exact (h1 hpos).2.2
      · rw [h2 (by omega)]
        exact NSIZE_ne_zero w hw

/-- Calls of `osso_mem_get_usage` from a state whose cached free-pages value is
`NSIZE`, in environments where the free-pages value is `NSIZE`: each returns 0
with the cached snapshot, and only `cache_stamp` changes. -/
theorem get_usage_calls_frozen (w : Nat) (envs : List Env) :
    ∀ t : State, t.cache_pfree = NSIZE w →
      (∀ e ∈ envs, get_free_pages w e = NSIZE w) →
      ∃ t2, get_usage_calls w envs t
          = some (List.replicate envs.length (0, some t.cache_usage), t2) ∧
        t2 = { t with cache_stamp := t2.cache_stamp } := by
  induction envs with
  | nil =>
    intro t _ _
    exact ⟨t, rfl, rfl⟩
  | cons e rest ih =>
    intro t ht hall
    have he : get_free_pages w e = t.cache_pfree := by
      rw [ht]
      exact hall e (List.mem_cons_self e rest)
    have hrest : ∀ e2 ∈ rest, get_free_pages w e2 = NSIZE w :=
      fun e2 h2 => hall e2 (List.mem_cons_of_mem e h2)
    by_cases hs : e.time = t.cache_stamp
    · obtain ⟨t2, h1, h2⟩ := ih t ht hrest
      refine ⟨t2, ?_, h2⟩
      unfold get_usage_calls
      rw [get_usage_same_stamp w e t usage_zero hs]
      simp only [h1]
      rfl
    · obtain ⟨t2, h1, h2⟩ := ih { t with cache_stamp := e.time } ht hrest
      refine ⟨t2, ?_, ?_⟩
      · unfold get_usage_calls
        rw [get_usage_same_pfree w e t usage_zero hs he]
        simp only [h1]
        rfl
      · rw [h2]

/-- C29: let a call of `osso_mem_get_usage` make a full recompute (its second is
not the cached one, and the cached free-pages value is not `NSIZE`) that
succeeds with the snapshot `u`, while the free-pages value is `NSIZE`.  Then
the call returns 0 with `u` and stores `NSIZE` and `u` in the cache, and in
every sequence of later calls in which the free-pages value is `NSIZE`, whatever
the clock and the files otherwise hold, every call returns 0 with `u`; the state
after them differs from the state after the first call in `cache_stamp` only, so
nothing was computed again. -/
theorem get_usage_frozen (w : Nat) (env : Env) (s : State) (p u : osso_mem_usage_t)
    (s1 : State) (envs : List Env)
    (hpf : get_free_pages w env = NSIZE w)
    (ht : env.time ≠ s.cache_stamp) (hp : s.cache_pfree ≠ NSIZE w)
    (hnow : osso_mem_get_usage_now w env s (some p) = some ⟨0, some u, s1⟩)
    (hall : ∀ e ∈ envs, get_free_pages w e = NSIZE w) :
    osso_mem_get_usage w env s (some p)
      = some ⟨0, some u, { s1 with cache_stamp := env.time, cache_pfree := NSIZE w,
                                   cache_usage := u }⟩ ∧
    ∃ t2, get_usage_calls w envs { s1 with cache_stamp := env.time, cache_pfree := NSIZE w,
                                           cache_usage := u }
        = some (List.replicate envs.length (0, some u), t2) ∧
      t2 = { s1 with cache_stamp := t2.cache_stamp, cache_pfree := NSIZE w,
                     cache_usage := u } := by
  have hne : get_free_pages w env ≠ s.cache_pfree := by
    rw [hpf]
    exact fun h => hp h.symm
  have h1 := (get_usage_recompute w env s p ht hne).2.1 u s1 hnow
  rw [hpf] at h1
  refine ⟨h1, ?_⟩
  obtain ⟨t2, h2, h3⟩ := get_usage_calls_frozen w envs
    { s1 with cache_stamp := env.time, cache_pfree := NSIZE w, cache_usage := u } rfl hall
  exact ⟨t2, h2, h3⟩

/-- Witness for C29: no free-pages file; the first call in second 100 on the
example memory, then calls in seconds 100, 101 and 250 on no memory file, on
another one and on none. -/
theorem get_usage_frozen_witness :
    osso_mem_get_usage 32 (env_of 100 [(File.meminfo, meminfo_example)]) (State.initial 32)
        (some usage_zero)
      = some ⟨0, some usage_example,
          { state_calibrated with cache_stamp := 100, cache_pfree := NSIZE 32,
                                  cache_usage := usage_example }⟩ ∧
    (get_usage_calls 32
        [env_of 100 [],
         env_of 101 [(File.meminfo, "MemTotal:        1000000 kB\nMemFree:          100000 kB\n")],
         env_of 250 []]
        { state_calibrated with cache_stamp := 100, cache_pfree := NSIZE 32,
                                cache_usage := usage_example }).map Prod.fst
      = some (List.replicate 3 (0, some usage_example)) :=
  match get_usage_frozen 32 (env_of 100 [(File.meminfo, meminfo_example)]) (State.initial 32)
    usage_zero usage_example state_calibrated
    [env_of 100 [],
     env_of 101 [(File.meminfo, "MemTotal:        1000000 kB\nMemFree:          100000 kB\n")],
     env_of 250 []]
    (by decide) (by decide) (by decide) (by decide) (by decide) with
  | ⟨h1, _, h2, _⟩ => ⟨h1, congrArg (Option.map Prod.fst) h2⟩

/-- A snapshot that `osso_mem_get_usage` computes can be all zero by value when the
byte values wrap: with 32-bit `size_t`, 4194304 kB of memory, all of it free,
1048576 allowed pages and a deny watermark of 100 percent, the first call
returns 0 with the snapshot it has just computed, and every field of it is 0. -/
theorem get_usage_computed_zero :
    (osso_mem_get_usage 32
        (env_of 100 [(File.meminfo, "MemTotal:        4194304 kB\nMemFree:         4194304 kB\n"),
                     (File.lowmem_allowed_pages, "1048576\n"),
                     (File.lowmem_deny_watermark, "100\n")])
        (State.initial 32) (some usage_zero)).map (fun r => (r.code, r.usage))
      = some (0, some usage_zero) := by
  decide

/-- C30: while the cache of `osso_mem_get_usage` is in its initial state
(`cache_stamp = 0`, `cache_pfree = 0`), a call at a clock value other than 0
reads a free-pages value that is not 0 and makes the full recompute: it
divides by zero, or returns what `osso_mem_get_usage_now` returns.  When that
is 0 with the snapshot `u`, the call returns `u` and stores it with the second
and the free-pages value; so a call that returns 0 returns a snapshot that
`osso_mem_get_usage_now` has just computed, never the cached one, and when the
total in bytes fits in `size_t` its `total` is not 0.  When the recompute
fails, the call returns that failure and leaves the whole state, the cache
included, as it was. -/
theorem get_usage_initial_cache (w : Nat) (hw : 32 ≤ w) (env : Env) (s : State)
    (p : osso_mem_usage_t)
    (hstamp : s.cache_stamp = 0) (hpfree : s.cache_pfree = 0) (htime : env.time ≠ 0) :
    get_free_pages w env ≠ 0 ∧
    (osso_mem_get_usage_now w env s (some p) = none →
      osso_mem_get_usage w env s (some p) = none) ∧
    (∀ u s1, osso_mem_get_usage_now w env s (some p) = some ⟨0, some u, s1⟩ →
      osso_mem_get_usage w env s (some p)
        = some ⟨0, some u, { s1 with cache_stamp := env.time,
                                     cache_pfree := get_free_pages w env,
                                     cache_usage := u }⟩) ∧
    (∀ r, osso_mem_get_usage_now w env s (some p) = some r → r.code ≠ 0 →
      osso_mem_get_usage w env s (some p) = some r ∧ r.state = s) ∧
    (∀ r, osso_mem_get_usage w env s (some p) = some r → r.code ≠ 0 → r.state = s) ∧
    (∀ u t, osso_mem_get_usage w env s (some p) = some ⟨0, some u, t⟩ →
      (∃ s1, osso_mem_get_usage_now w env s (some p) = some ⟨0, some u, s1⟩) ∧
      t.cache_usage = u ∧ t.cache_stamp = env.time ∧
      (((load_meminfo w env env.line_usage (List.replicate MAX_MEMINFO_LABELS 0)
            MAX_MEMINFO_LABELS).1.getD ID_MEMTOTAL 0 +
          (load_meminfo w env env.line_usage (List.replicate MAX_MEMINFO_LABELS 0)
            MAX_MEMINFO_LABELS).1.getD ID_SWAPTOTAL 0) * 1024 < 2 ^ w →
        u.total ≠ 0 ∧ u ≠ usage_zero)) := by
  have hfree : get_free_pages w env ≠ 0 := get_file_value_ne_zero w hw env File.lowmem_free_pages
  have ht : env.time ≠ s.cache_stamp := by
    rw [hstamp]
    exact htime
  have hp : get_free_pages w env ≠ s.cache_pfree := by
    rw [hpfree]
    exact hfree
  obtain ⟨h1, h2, h3⟩ := get_usage_recompute w env s p ht hp
  have hfail : ∀ r, osso_mem_get_usage_now w env s (some p) = some r → r.code ≠ 0 →
      r.state = s := by
    intro r hr hc
    rcases usage_now_cases w env s p with hn | hn | ⟨u, hn⟩
    · rw [hn] at hr
      rw [← Option.some.inj hr]
    · rw [hn] at hr
      cases hr
    · rw [hn] at hr
      rw [← Option.some.inj hr] at hc
      exact absurd rfl hc
  refine ⟨hfree, h1, h2, fun r hr hc => ⟨h3 r hr hc, hfail r hr hc⟩, ?_, ?_⟩
  · intro r hr hc
    rcases usage_now_cases w env s p with hn | hn | ⟨u, hn⟩
    · rw [h3 _ hn (show (-1 : Int) ≠ 0 by decide)] at hr
      rw [← Option.some.inj hr]
    · rw [h1 hn] at hr
      cases hr
    · rw [h2 _ _ hn] at hr
      rw [← Option.some.inj hr] at hc
      exact absurd rfl hc
  · intro u t hr
    have hnow : ∃ s1, osso_mem_get_usage_now w env s (some p) = some ⟨0, some u, s1⟩ := by
      rcases usage_now_cases w env s p with hn | hn | ⟨u2, hn⟩
      · rw [h3 _ hn (show (-1 : Int) ≠ 0 by decide)] at hr
        have hc : (-1 : Int) = 0 := congrArg Ret.code (Option.some.inj hr)
        exact absurd hc (by decide)
      · rw [h1 hn] at hr
        cases hr
      · have hr2 := hr
        rw [h2 _ _ hn] at hr2
        have hu := Option.some.inj (congrArg Ret.usage (Option.some.inj hr2))
        rw [← hu]
        exact ⟨_, hn⟩
    obtain ⟨hcs, hcu⟩ := get_usage_cached w env s t p u hr
    refine ⟨hnow, hcu, hcs, ?_⟩
    intro hfit
    obtain ⟨s1, hs1⟩ := hnow
    obtain ⟨-, htot, -, hut, -⟩ := usage_now_unfold w env s p u s1 _ _ Prod.mk.eta.symm hs1
    generalize (load_meminfo w env env.line_usage (List.replicate MAX_MEMINFO_LABELS 0)
        MAX_MEMINFO_LABELS).1.getD ID_MEMTOTAL 0 +
      (load_meminfo w env env.line_usage (List.replicate MAX_MEMINFO_LABELS 0)
        MAX_MEMINFO_LABELS).1.getD ID_SWAPTOTAL 0 = total at hfit htot hut
    have hlt : total < 2 ^ w := by omega
    rw [Nat.mod_eq_of_lt hlt] at htot hut
    have hT : u.total ≠ 0 := by
      rw [hut, Nat.mod_eq_of_lt hfit]
      omega
    refine ⟨hT, ?_⟩
    intro hz
    rw [hz] at hT
    exact hT rfl

/-- Witness for C30: the first call of a 32-bit process, in second 100 on the
example memory with 5000 free pages. -/
theorem get_usage_initial_cache_witness :
    get_free_pages 32 env_first ≠ 0 ∧
    osso_mem_get_usage 32 env_first (State.initial 32) (some usage_zero)
      = some ⟨0, some usage_example,
          { state_calibrated with cache_stamp := env_first.time,
                                  cache_pfree := get_free_pages 32 env_first,
                                  cache_usage := usage_example }⟩ :=
  ⟨(get_usage_initial_cache 32 (by decide) env_first (State.initial 32) usage_zero rfl rfl
      (by decide)).1,
    (get_usage_initial_cache 32 (by decide) env_first (State.initial 32) usage_zero rfl rfl
      (by decide)).2.2.1 usage_example state_calibrated (by decide)⟩

end Osso
